import Mathlib

/-!
Verification of the CollegeOS ML service (backend/ml-service) against its
natural-language specification.

The Python sources are shallowly embedded:
* numbers are exact rationals (`ℚ`); Python float formatting inside message
  strings is abstracted, numeric comparisons are kept exact;
* dictionaries with a known field set become structures whose fields are
  `Option`-typed when the source distinguishes a missing/None value
  (a key mapped to `None` is modelled the same as an absent key);
* the numeric sklearn pipeline (train/test split, scaler fit, LDA fit,
  metric evaluation, transform, predict_proba) is abstracted as an
  `Oracle` parameter; in the source these steps mutate no service state,
  so every claim below is independent of the oracle values;
* fallible operations return `Except PyErr`, mirroring where the source
  can raise (missing config attribute, pandas KeyError on a column that
  does not exist, joblib/json load of a corrupt artifact file);
* the model store, the trainer caches and the prediction-service cache are
  total functions from college id to `Option` values inside one `Sys` state.
-/

/-! ## Decimal digit strings (embedding of Python `str`/`int` on version numbers) -/

/-- One decimal digit character. -/
def digitCh (n : Nat) : Char :=
  match n with
  | 0 => '0' | 1 => '1' | 2 => '2' | 3 => '3' | 4 => '4'
  | 5 => '5' | 6 => '6' | 7 => '7' | 8 => '8' | _ => '9'

/-- Decimal digits, most significant first, with explicit fuel so that the
definition reduces by iota on concrete inputs. -/
def natCharsF : Nat → Nat → List Char
  | 0, _ => []
  | fuel + 1, n =>
      if n < 10 then [digitCh n]
      else natCharsF fuel (n / 10) ++ [digitCh (n % 10)]

/-- Decimal digits of a natural number, most significant first
(the character list of Python `str(n)`); `n + 1` units of fuel always
suffice since the argument strictly decreases. -/
def natChars (n : Nat) : List Char := natCharsF (n + 1) n

/-- Character list of Python `str(i)` for an integer. -/
def intChars (i : Int) : List Char :=
  if i < 0 then '-' :: natChars i.natAbs else natChars i.natAbs

/-- Python `str(n)` for a natural number. -/
def natStr (n : Nat) : String := String.mk (natChars n)

/-- Python `str(i)` for an integer. -/
def intStr (i : Int) : String := String.mk (intChars i)

def isDigitCh (c : Char) : Bool := 48 ≤ c.toNat && c.toNat ≤ 57

/-- Numeric value accumulated over a digit list. -/
def digitsVal (cs : List Char) : Nat :=
  cs.foldl (fun a c => a * 10 + (c.toNat - 48)) 0

/-- Embedding of Python `int(s)` on a (possibly signed) ASCII digit string;
other accepted Python spellings (whitespace, underscores, `+`) are not
produced by this program and are mapped to failure. -/
def pyIntChars (cs : List Char) : Option Int :=
  match cs with
  | [] => none
  | c :: rest =>
      if c = '-' then
        if rest ≠ [] ∧ rest.all isDigitCh then some (-(digitsVal rest : Int)) else none
      else
        if (c :: rest).all isDigitCh then some (digitsVal (c :: rest) : Int) else none

/-- Split a character list at every `'.'`, the embedding of
Python `s.split('.')`.  The recursive call always returns a nonempty
list, so prepending `c` to its head matches the usual definition. -/
def splitDot : List Char → List (List Char)
  | [] => [[]]
  | c :: cs =>
      let r := splitDot cs
      if c = '.' then [] :: r else (c :: r.headD []) :: r.tail

theorem digitCh_isDigit (n : Nat) (h : n < 10) : isDigitCh (digitCh n) = true := by
  interval_cases n <;> decide

theorem digitCh_ne_dot (n : Nat) (h : n < 10) : digitCh n ≠ '.' := by
  interval_cases n <;> decide

theorem digitsVal_append_digit (cs : List Char) (c : Char) :
    digitsVal (cs ++ [c]) = digitsVal cs * 10 + (c.toNat - 48) := by
  simp [digitsVal, List.foldl_append]

theorem digitCh_val (n : Nat) (h : n < 10) : (digitCh n).toNat - 48 = n := by
  interval_cases n <;> decide

/-- Fuel independence and the basic shape facts about `natCharsF`,
established in one strong induction. -/
theorem natCharsF_spec (n : Nat) : ∀ fuel, n < fuel →
    natCharsF fuel n = natChars n ∧ (natChars n).all isDigitCh = true
    ∧ '.' ∉ natChars n ∧ natChars n ≠ [] ∧ digitsVal (natChars n) = n := by
  induction n using Nat.strong_induction_on with
  | _ n ih =>
      intro fuel hf
      by_cases h : n < 10
      · cases fuel with
        | zero => omega
        | succ f =>
            refine ⟨?_, ?_, ?_, ?_, ?_⟩ <;>
              simp [natChars, natCharsF, h, digitCh_isDigit n h,
                    (digitCh_ne_dot n h).symm, digitsVal, digitCh_val n h]
      · have hdiv : n / 10 < n := Nat.div_lt_self (by omega) (by omega)
        have hm : n % 10 < 10 := Nat.mod_lt _ (by omega)
        have step : ∀ g, n < g + 1 →
            natCharsF (g + 1) n = natChars (n / 10) ++ [digitCh (n % 10)] := by
          intro g hg
          have := (ih (n / 10) hdiv g (by omega)).1
          simp [natCharsF, h, this]
        cases fuel with
        | zero => omega
        | succ f =>
            have hself : natChars n = natChars (n / 10) ++ [digitCh (n % 10)] :=
              step n (by omega)
            have ihd := ih (n / 10) hdiv (n / 10 + 1) (by omega)
            refine ⟨by rw [step f hf, hself], ?_, ?_, ?_, ?_⟩
            · rw [hself, List.all_append]
              simp [ihd.2.1, digitCh_isDigit (n % 10) hm]
            · rw [hself]
              simp only [List.mem_append, List.mem_singleton]
              push_neg
              exact ⟨ihd.2.2.1, (digitCh_ne_dot (n % 10) hm).symm⟩
            · rw [hself]; simp
            · rw [hself, digitsVal_append_digit, ihd.2.2.2.2, digitCh_val (n % 10) hm]
              omega

theorem natChars_ne_nil (n : Nat) : natChars n ≠ [] :=
  (natCharsF_spec n (n + 1) (by omega)).2.2.2.1

theorem natChars_all_digits (n : Nat) : (natChars n).all isDigitCh = true :=
  (natCharsF_spec n (n + 1) (by omega)).2.1

theorem natChars_no_dot (n : Nat) : '.' ∉ natChars n :=
  (natCharsF_spec n (n + 1) (by omega)).2.2.1

theorem digitsVal_natChars (n : Nat) : digitsVal (natChars n) = n :=
  (natCharsF_spec n (n + 1) (by omega)).2.2.2.2

/-- `int(str(n)) = n` for the version strings this program writes. -/
theorem pyIntChars_natChars (n : Nat) : pyIntChars (natChars n) = some (n : Int) := by
  have hd := natChars_all_digits n
  have hne := natChars_ne_nil n
  have hval := digitsVal_natChars n
  cases hchars : natChars n with
  | nil => exact absurd hchars hne
  | cons c rest =>
      rw [hchars] at hd hval
      have hc : c ≠ '-' := by
        intro hc
        rw [List.all_cons, hc] at hd
        simp [isDigitCh] at hd
      simp [pyIntChars, hc, hd, hval]

theorem splitDot_no_dot (cs : List Char) (h : '.' ∉ cs) : splitDot cs = [cs] := by
  induction cs with
  | nil => rfl
  | cons c cs ih =>
      have hc : c ≠ '.' := by intro hc; exact h (hc ▸ List.mem_cons_self c cs)
      simp only [splitDot, if_neg hc, ih (fun hm => h (List.mem_cons_of_mem c hm))]
      rfl

theorem splitDot_cons_dot (a b : List Char) (h : '.' ∉ a) :
    splitDot (a ++ '.' :: b) = a :: splitDot b := by
  induction a with
  | nil => simp [splitDot]
  | cons c cs ih =>
      have hc : c ≠ '.' := by intro hc; exact h (hc ▸ List.mem_cons_self c cs)
      have hcs : '.' ∉ cs := fun hm => h (List.mem_cons_of_mem c hm)
      simp only [List.cons_append, splitDot, if_neg hc, List.append_eq, ih hcs]
      rfl

/-! ## Configuration (backend/ml-service/config.py)

Every value is read from the environment with a hard-coded default, so the
embedding carries a `Config` record (quantified in the theorems) together
with the default instance.  `MODEL_FRESHNESS_DAYS` is intentionally *not* a
field: config.py never defines it, and `train_model` reading it raises
`AttributeError`. -/

structure Config where
  MIN_SAMPLES_FOR_TRAINING : Nat
  MIN_SAMPLES_PER_CLASS : Nat
  MIN_ACCURACY_THRESHOLD : ℚ
  VALIDATION_SPLIT : ℚ
  CV_FOLDS : Nat
  MIN_CONFIDENCE_SCORE : ℚ
  MODEL_CACHE_TTL : ℚ
  deriving DecidableEq

/-- The defaults hard-coded in config.py. -/
def defaultConfig : Config :=
  { MIN_SAMPLES_FOR_TRAINING := 30
    MIN_SAMPLES_PER_CLASS := 10
    MIN_ACCURACY_THRESHOLD := 11/20
    VALIDATION_SPLIT := 1/5
    CV_FOLDS := 5
    MIN_CONFIDENCE_SCORE := 1/2
    MODEL_CACHE_TTL := 3600 }

/-- config.FEATURE_COLUMNS, in order. -/
def FEATURE_COLUMNS : List String :=
  ["gpa_normalized", "test_score_percentile", "class_rank_percentile",
   "ap_ib_count", "activity_tier1_count", "activity_tier2_count",
   "activity_tier3_count", "is_first_gen", "is_legacy", "is_athlete",
   "is_in_state", "college_acceptance_rate"]

/-- config.FEATURE_IMPORTANCE_NAMES as an association list. -/
def FEATURE_IMPORTANCE_NAMES : List (String × String) :=
  [("gpa_normalized", "GPA"),
   ("test_score_percentile", "Test Scores (SAT/ACT)"),
   ("class_rank_percentile", "Class Rank"),
   ("ap_ib_count", "Course Rigor (AP/IB)"),
   ("activity_tier1_count", "National/International Achievements"),
   ("activity_tier2_count", "State/Regional Achievements"),
   ("activity_tier3_count", "School-Level Activities"),
   ("is_first_gen", "First Generation Status"),
   ("is_legacy", "Legacy Status"),
   ("is_athlete", "Recruited Athlete"),
   ("is_in_state", "In-State Advantage"),
   ("college_acceptance_rate", "College Selectivity")]

/-! ## Python value helpers -/

/-- Python truthiness of an optional number (`None` and `0` are falsy). -/
def truthyQ (v : Option ℚ) : Bool :=
  match v with
  | none => false
  | some q => q ≠ 0

/-- Python truthiness of an optional integer. -/
def truthyI (v : Option Int) : Bool :=
  match v with
  | none => false
  | some i => i ≠ 0

/-- Python `a or b` on two optional numbers. -/
def pyOrQ (a b : Option ℚ) : Option ℚ := if truthyQ a then a else b

/-- Lookup in an association list, the embedding of `dict.get`. -/
def assocGet {β : Type} (key : String) (l : List (String × β)) : Option β :=
  match l with
  | [] => none
  | (k, v) :: rest => if k = key then some v else assocGet key rest

/-- Python `round(q)`: round half to even. -/
def pyRound (q : ℚ) : Int :=
  let fl := q.floor
  let fr := q - fl
  if fr < 1/2 then fl
  else if 1/2 < fr then fl + 1
  else if fl % 2 = 0 then fl else fl + 1

/-- Python `round(q, 3)`. -/
def pyRound3 (q : ℚ) : ℚ := (pyRound (q * 1000) : ℚ) / 1000

/-- Contiguous-sublist test used for Python `needle in haystack` on strings. -/
def listStarts : List Char → List Char → Bool
  | [], _ => true
  | _ :: _, [] => false
  | a :: as, b :: bs => a = b && listStarts as bs

def listSub (needle : List Char) : List Char → Bool
  | [] => listStarts needle []
  | c :: cs => listStarts needle (c :: cs) || listSub needle cs

/-- Python `needle in hay` for strings. -/
def strContains (hay needle : String) : Bool := listSub needle.toList hay.toList

/-- Python `str.lower()` (ASCII, which covers the source values compared
against: "verified", "user_submitted", "official"). -/
def pyLower (s : String) : String := String.mk (s.data.map Char.toLower)

/-! ## Feature Processor (backend/ml-service/data_processor.py) -/

/-- A raw applicant record, i.e. the loosely structured dict consumed by
`DataProcessor`.  Fields the source reads with `.get` are `Option`-typed;
boolean hook flags are read only through truthiness, hence `Bool`. -/
structure RawRecord where
  gpa : Option ℚ := none
  gpa_scale : Option String := none
  sat_total : Option Int := none
  act_composite : Option Int := none
  class_rank_percentile : Option ℚ := none
  num_ap_courses : Option Int := none
  num_ib_courses : Option Int := none
  activity_tier1_count : Option Int := none
  activity_tier2_count : Option Int := none
  activity_tier3_count : Option Int := none
  is_first_gen : Bool := false
  is_legacy : Bool := false
  is_athlete : Bool := false
  is_in_state : Bool := false
  college_acceptance_rate : Option ℚ := none
  decision : Option String := none
  college_id : Option Int := none
  source : Option String := none
  is_verified : Bool := false
  deriving DecidableEq

/-- The `gpa_scales` table: maximum of each declared scale
(all minima are 0); an unknown scale falls back to the 4.0 entry. -/
def gpaScaleMax (scale : String) : ℚ :=
  if scale = "4.0" then 4
  else if scale = "5.0" then 5
  else if scale = "100" then 100
  else if scale = "10" then 10
  else if scale = "percentage" then 100
  else 4

/-- `DataProcessor.normalize_gpa`. -/
def normalize_gpa (gpa : Option ℚ) (scale : String) : Option ℚ :=
  match gpa with
  | none => none
  | some g =>
      let maxv :=
        if scale = "4.0" ∧ g > 9/2 then
          (if g ≤ 5 then (5 : ℚ) else if g ≤ 10 then 10 else 100)
        else gpaScaleMax scale
      some (min (max ((g - 0) / (maxv - 0) * 4) 0) 4)

/-- `DataProcessor.sat_to_percentile` on a present score: first tabulated
score `≤` the input wins, 10 below the table minimum. -/
def sat_to_percentile (sat : Int) : ℚ :=
  if sat ≥ 1600 then 99 else if sat ≥ 1550 then 99 else if sat ≥ 1500 then 98
  else if sat ≥ 1450 then 96 else if sat ≥ 1400 then 94 else if sat ≥ 1350 then 91
  else if sat ≥ 1300 then 87 else if sat ≥ 1250 then 82 else if sat ≥ 1200 then 74
  else if sat ≥ 1150 then 66 else if sat ≥ 1100 then 57 else if sat ≥ 1050 then 47
  else if sat ≥ 1000 then 38 else if sat ≥ 950 then 29 else if sat ≥ 900 then 22
  else 10

/-- `DataProcessor.act_to_percentile` on a present score. -/
def act_to_percentile (act : Int) : ℚ :=
  if act ≥ 36 then 99 else if act ≥ 35 then 99 else if act ≥ 34 then 99
  else if act ≥ 33 then 98 else if act ≥ 32 then 97 else if act ≥ 31 then 96
  else if act ≥ 30 then 94 else if act ≥ 29 then 92 else if act ≥ 28 then 89
  else if act ≥ 27 then 86 else if act ≥ 26 then 82 else if act ≥ 25 then 78
  else if act ≥ 24 then 73 else if act ≥ 23 then 68 else if act ≥ 22 then 62
  else if act ≥ 21 then 56 else if act ≥ 20 then 50 else if act ≥ 19 then 44
  else 10

/-- `DataProcessor.get_test_score_percentile`: the guards
`if sat`, `if sat_pct and act_pct` and the final `or` chain are Python
truthiness tests (a tabulated percentile is never 0). -/
def get_test_score_percentile (sat act : Option Int) : ℚ :=
  let sat_pct : Option ℚ := if truthyI sat then some (sat_to_percentile (sat.getD 0)) else none
  let act_pct : Option ℚ := if truthyI act then some (act_to_percentile (act.getD 0)) else none
  match sat_pct, act_pct with
  | some s, some a => max s a
  | some s, none => s
  | none, some a => a
  | none, none => 50

/-- `DataProcessor.calculate_confidence_score`.  Essential fields weigh 0.3,
five secondary fields 0.1 each, and the source/verification block 0.2;
the final score is earned weight over maximum weight (always 1.1 here). -/
def calculate_confidence_score (r : RawRecord) : ℚ :=
  let essential : ℚ :=
    (if r.gpa.isSome then (3/10 : ℚ) else 0) + (if r.decision.isSome then (3/10 : ℚ) else 0)
  let secondary : ℚ :=
    (if r.sat_total.isSome then (1/10 : ℚ) else 0)
    + (if r.act_composite.isSome then (1/10 : ℚ) else 0)
    + (if r.class_rank_percentile.isSome then (1/10 : ℚ) else 0)
    + (if r.activity_tier1_count.isSome then (1/10 : ℚ) else 0)
    + (if r.activity_tier2_count.isSome then (1/10 : ℚ) else 0)
  let src := pyLower (r.source.getD "")
  let sourceScore : ℚ :=
    if strContains src "verified" || r.is_verified then 1/5
    else if strContains src "user_submitted" then 3/20
    else if strContains src "official" then 9/50
    else if src ≠ "" then 1/10
    else 0
  let score := essential + secondary + sourceScore
  let maxScore : ℚ := 3/10 + 3/10 + 5 * (1/10) + 1/5
  score / maxScore

/-- `DataProcessor.is_suspicious_entry`: the boolean component together with
the reason list. -/
def is_suspicious_entry (r : RawRecord) : Bool × List String :=
  let reasons : List String :=
    (match r.gpa with
     | none => []
     | some g =>
         (if g > 5 ∧ g < 10 then ["GPA in unusual range (5-10)"] else [])
         ++ (if g > 100 then ["GPA exceeds 100"] else [])
         ++ (if g < 0 then ["Negative GPA"] else []))
    ++ (match r.sat_total with
        | none => []
        | some s => if s < 400 ∨ s > 1600 then ["SAT score out of range: " ++ intStr s] else [])
    ++ (match r.act_composite with
        | none => []
        | some a => if a < 1 ∨ a > 36 then ["ACT score out of range: " ++ intStr a] else [])
    ++ (match r.class_rank_percentile with
        | none => []
        | some p => if p < 0 ∨ p > 100 then ["Class rank percentile invalid"] else [])
    ++ (if truthyI r.sat_total ∧ r.sat_total.getD 0 ≥ 1500
           ∧ truthyQ r.gpa ∧ r.gpa.getD 0 < 2
        then ["High SAT with very low GPA - inconsistent"] else [])
  (reasons.length > 0, reasons)

/-- One row of the training DataFrame produced by `prepare_training_data`.
`gpa_normalized` is the only feature column that can be null before
imputation in this embedding: every other numeric column is built with a
`.get(..., default)` fallback. -/
structure Row where
  gpa_normalized : Option ℚ
  test_score_percentile : ℚ
  class_rank_percentile : ℚ
  ap_ib_count : ℚ
  activity_tier1_count : ℚ
  activity_tier2_count : ℚ
  activity_tier3_count : ℚ
  is_first_gen : ℚ
  is_legacy : ℚ
  is_athlete : ℚ
  is_in_state : ℚ
  college_acceptance_rate : ℚ
  admitted : Bool
  college_id : Option Int
  confidence_score : ℚ
  deriving DecidableEq

/-- Feature extraction for one surviving record. -/
def recordToRow (r : RawRecord) (conf : ℚ) : Row :=
  { gpa_normalized := normalize_gpa r.gpa (r.gpa_scale.getD "4.0")
    test_score_percentile := get_test_score_percentile r.sat_total r.act_composite
    class_rank_percentile := r.class_rank_percentile.getD 50
    ap_ib_count := ((r.num_ap_courses.getD 0 + r.num_ib_courses.getD 0 : Int) : ℚ)
    activity_tier1_count := ((r.activity_tier1_count.getD 0 : Int) : ℚ)
    activity_tier2_count := ((r.activity_tier2_count.getD 0 : Int) : ℚ)
    activity_tier3_count := ((r.activity_tier3_count.getD 0 : Int) : ℚ)
    is_first_gen := if r.is_first_gen then 1 else 0
    is_legacy := if r.is_legacy then 1 else 0
    is_athlete := if r.is_athlete then 1 else 0
    is_in_state := if r.is_in_state then 1 else 0
    college_acceptance_rate := r.college_acceptance_rate.getD 50
    admitted := r.decision = some "accepted"
    college_id := r.college_id
    confidence_score := conf }

/-- Insertion sort on rationals (ascending), used for the pandas median. -/
def insertQ (x : ℚ) : List ℚ → List ℚ
  | [] => [x]
  | y :: ys => if x ≤ y then x :: y :: ys else y :: insertQ x ys

def sortQ : List ℚ → List ℚ
  | [] => []
  | x :: xs => insertQ x (sortQ xs)

/-- pandas `Series.median()` over the non-null values: the middle element,
or the mean of the two middle elements; `None` on an empty series. -/
def medianQ (l : List ℚ) : Option ℚ :=
  if l = [] then none
  else
    let s := sortQ l
    let n := s.length
    if n % 2 = 1 then s.get? (n / 2)
    else
      match s.get? (n / 2 - 1), s.get? (n / 2) with
      | some a, some b => some ((a + b) / 2)
      | _, _ => none

/-- `DataProcessor.prepare_training_data`: drop suspicious records, drop
records under the confidence floor, extract features, then impute missing
`gpa_normalized` values with the column median (the other numeric columns
of this embedding are never null, so their `fillna` is the identity). -/
def prepare_training_data (cfg : Config) (raw : List RawRecord) : List Row :=
  let processed := raw.filterMap (fun r =>
    if (is_suspicious_entry r).1 then none
    else
      let conf := calculate_confidence_score r
      if conf < cfg.MIN_CONFIDENCE_SCORE then none
      else some (recordToRow r conf))
  let med := medianQ (processed.filterMap (fun row => row.gpa_normalized))
  processed.map (fun row =>
    match row.gpa_normalized with
    | none => { row with gpa_normalized := med }
    | some _ => row)

/-- The inference-time feature dict built by
`DataProcessor.prepare_prediction_input`. -/
structure Features where
  gpa_normalized : Option ℚ
  test_score_percentile : ℚ
  class_rank_percentile : ℚ
  ap_ib_count : ℚ
  activity_tier1_count : ℚ
  activity_tier2_count : ℚ
  activity_tier3_count : ℚ
  is_first_gen : ℚ
  is_legacy : ℚ
  is_athlete : ℚ
  is_in_state : ℚ
  college_acceptance_rate : ℚ
  deriving DecidableEq

/-- A student profile as read by the prediction service. -/
structure StudentProfile where
  gpa_unweighted : Option ℚ := none
  gpa_weighted : Option ℚ := none
  gpa_scale : Option String := none
  sat_total : Option Int := none
  act_composite : Option Int := none
  class_rank_percentile : Option ℚ := none
  num_ap_courses : Option Int := none
  num_ib_courses : Option Int := none
  activity_tier1_count : Option Int := none
  activity_tier2_count : Option Int := none
  activity_tier3_count : Option Int := none
  is_first_generation : Bool := false
  is_legacy : Bool := false
  is_athlete : Bool := false
  state_province : Option String := none
  deriving DecidableEq

/-- A college dict as read by the prediction service. -/
structure College where
  id : Int
  name : Option String := none
  acceptance_rate : Option ℚ := none
  average_gpa : Option ℚ := none
  location_state : Option String := none
  deriving DecidableEq

/-- `DataProcessor.prepare_prediction_input`.  Note the in-state flag is the
Python `==` of two possibly-absent fields, so two absent fields compare
equal. -/
def prepare_prediction_input (p : StudentProfile) (c : College) : Features :=
  { gpa_normalized := normalize_gpa (pyOrQ p.gpa_unweighted p.gpa_weighted) (p.gpa_scale.getD "4.0")
    test_score_percentile := get_test_score_percentile p.sat_total p.act_composite
    class_rank_percentile := p.class_rank_percentile.getD 50
    ap_ib_count := ((p.num_ap_courses.getD 0 + p.num_ib_courses.getD 0 : Int) : ℚ)
    activity_tier1_count := ((p.activity_tier1_count.getD 0 : Int) : ℚ)
    activity_tier2_count := ((p.activity_tier2_count.getD 0 : Int) : ℚ)
    activity_tier3_count := ((p.activity_tier3_count.getD 0 : Int) : ℚ)
    is_first_gen := if p.is_first_generation then 1 else 0
    is_legacy := if p.is_legacy then 1 else 0
    is_athlete := if p.is_athlete then 1 else 0
    is_in_state := if p.state_province = c.location_state then 1 else 0
    college_acceptance_rate := c.acceptance_rate.getD 50 }

/-- `features.get(col, 0)` on the inference feature dict. -/
def featGet (f : Features) (col : String) : Option ℚ :=
  if col = "gpa_normalized" then f.gpa_normalized
  else if col = "test_score_percentile" then some f.test_score_percentile
  else if col = "class_rank_percentile" then some f.class_rank_percentile
  else if col = "ap_ib_count" then some f.ap_ib_count
  else if col = "activity_tier1_count" then some f.activity_tier1_count
  else if col = "activity_tier2_count" then some f.activity_tier2_count
  else if col = "activity_tier3_count" then some f.activity_tier3_count
  else if col = "is_first_gen" then some f.is_first_gen
  else if col = "is_legacy" then some f.is_legacy
  else if col = "is_athlete" then some f.is_athlete
  else if col = "is_in_state" then some f.is_in_state
  else if col = "college_acceptance_rate" then some f.college_acceptance_rate
  else some 0

/-- The values of the feature dict in insertion order
(used by `_calculate_confidence` for `features.items()`). -/
def featValues (f : Features) : List (Option ℚ) :=
  [f.gpa_normalized, some f.test_score_percentile, some f.class_rank_percentile,
   some f.ap_ib_count, some f.activity_tier1_count, some f.activity_tier2_count,
   some f.activity_tier3_count, some f.is_first_gen, some f.is_legacy,
   some f.is_athlete, some f.is_in_state, some f.college_acceptance_rate]

/-- The column names present in a training row, i.e. the DataFrame columns
(the label and metadata columns included). -/
def rowColumns : List String :=
  FEATURE_COLUMNS ++ ["admitted", "college_id", "confidence_score"]

/-- `row[col]` for the numeric feature columns of a training row. -/
def rowGet (row : Row) (col : String) : Option ℚ :=
  if col = "gpa_normalized" then row.gpa_normalized
  else if col = "test_score_percentile" then some row.test_score_percentile
  else if col = "class_rank_percentile" then some row.class_rank_percentile
  else if col = "ap_ib_count" then some row.ap_ib_count
  else if col = "activity_tier1_count" then some row.activity_tier1_count
  else if col = "activity_tier2_count" then some row.activity_tier2_count
  else if col = "activity_tier3_count" then some row.activity_tier3_count
  else if col = "is_first_gen" then some row.is_first_gen
  else if col = "is_legacy" then some row.is_legacy
  else if col = "is_athlete" then some row.is_athlete
  else if col = "is_in_state" then some row.is_in_state
  else if col = "college_acceptance_rate" then some row.college_acceptance_rate
  else none

/-! ## Model Trainer (backend/ml-service/lda_trainer.py) -/

/-- Evaluation metrics attached to a trained model. -/
structure Metrics where
  accuracy : ℚ
  precision : ℚ
  recall_score : ℚ
  f1 : ℚ
  cv_mean : ℚ
  cv_std : ℚ
  deriving DecidableEq

/-- The metadata document persisted next to a classifier.
`trained_at` is kept as an abstract day index (the source stores an
ISO-8601 timestamp and only ever takes whole-day differences). -/
structure Metadata where
  college_id : Int
  trained_at : Int
  version : String
  sample_count : Nat
  accepted_count : Nat
  rejected_count : Nat
  class_balance : ℚ
  feature_columns : List String
  metrics : Metrics
  feature_importance : List (String × ℚ)
  is_deployed : Bool
  deriving DecidableEq

/-- Content of a persisted artifact file: loadable, or corrupt
(`joblib.load` / `json.load` raises on it). -/
inductive Blob (α : Type) where
  | ok (a : α)
  | corrupt
  deriving DecidableEq

/-- The exceptions this embedding distinguishes. -/
inductive PyErr where
  | attributeError (name : String)
  | keyError (key : String)
  | loadError (path : String)
  deriving DecidableEq

/-- File names from `_get_model_path` / `_get_scaler_path` /
`_get_metadata_path` (the directory prefix is constant). -/
def modelPath (cid : Int) : String := "lda_college_" ++ intStr cid ++ ".joblib"

def scalerPath (cid : Int) : String := "scaler_college_" ++ intStr cid ++ ".joblib"

def metadataPath (cid : Int) : String := "metadata_college_" ++ intStr cid ++ ".json"

/-- The model directory: per-college artifact files. -/
structure Disk (M S : Type) where
  modelFile : Int → Option (Blob M)
  scalerFile : Int → Option (Blob S)
  metadataFile : Int → Option (Blob Metadata)

/-- The in-process caches of the `LDATrainer` singleton. -/
structure TrainerState (M S : Type) where
  models : Int → Option M
  scalers : Int → Option S

/-- The in-process cache of the `PredictionService` singleton. -/
structure PredState (M S : Type) where
  model_cache : Int → Option (M × S × Metadata)
  cache_timestamps : Int → Option ℚ

/-- The whole mutable state of the service process. -/
structure Sys (M S : Type) where
  disk : Disk M S
  trainer : TrainerState M S
  pred : PredState M S

/-- Fresh process over an empty model directory. -/
def emptySys {M S : Type} : Sys M S :=
  { disk := { modelFile := fun _ => none, scalerFile := fun _ => none,
              metadataFile := fun _ => none }
    trainer := { models := fun _ => none, scalers := fun _ => none }
    pred := { model_cache := fun _ => none, cache_timestamps := fun _ => none } }

/-- The numeric sklearn pipeline, abstracted: `fit` stands for
train/test split, scaler fit, LDA fit and metric evaluation
(lines 112-142 of lda_trainer.py, mutation-free); `coef` reads the fitted
linear coefficients; `transform` and `predictProba` are the inference-time
calls inside the `try` of `predict`, which may raise. -/
structure Oracle (M S : Type) where
  fit : List (List (Option ℚ)) → List Bool → M × S × Metrics
  coef : M → List ℚ
  transform : S → List (Option ℚ) → Except String (List ℚ)
  predictProba : M → List ℚ → Except String (List ℚ)

/-- `LDATrainer.load_model`: trainer cache first, then disk; a corrupt file
raises out of `joblib.load`; absence is not an error. -/
def load_model {M S : Type} (s : Sys M S) (cid : Int) :
    Except PyErr (Option M) × Sys M S :=
  match s.trainer.models cid with
  | some m => (Except.ok (some m), s)
  | none =>
      match s.disk.modelFile cid with
      | some (Blob.ok m) =>
          (Except.ok (some m),
           { s with trainer := { s.trainer with
               models := fun c => if c = cid then some m else s.trainer.models c } })
      | some Blob.corrupt => (Except.error (PyErr.loadError (modelPath cid)), s)
      | none => (Except.ok none, s)

/-- `LDATrainer.load_scaler`. -/
def load_scaler {M S : Type} (s : Sys M S) (cid : Int) :
    Except PyErr (Option S) × Sys M S :=
  match s.trainer.scalers cid with
  | some sc => (Except.ok (some sc), s)
  | none =>
      match s.disk.scalerFile cid with
      | some (Blob.ok sc) =>
          (Except.ok (some sc),
           { s with trainer := { s.trainer with
               scalers := fun c => if c = cid then some sc else s.trainer.scalers c } })
      | some Blob.corrupt => (Except.error (PyErr.loadError (scalerPath cid)), s)
      | none => (Except.ok none, s)

/-- `LDATrainer.load_model_metadata`: always reads the file (no cache);
corrupt JSON raises; absence returns `None`. -/
def load_model_metadata {M S : Type} (s : Sys M S) (cid : Int) :
    Except PyErr (Option Metadata) :=
  match s.disk.metadataFile cid with
  | some (Blob.ok md) => Except.ok (some md)
  | some Blob.corrupt => Except.error (PyErr.loadError (metadataPath cid))
  | none => Except.ok none

/-- `LDATrainer.check_training_readiness`. -/
def check_training_readiness (cfg : Config) (college_data : List Row) : Bool × String :=
  if college_data.length < cfg.MIN_SAMPLES_FOR_TRAINING then
    (false, "Insufficient samples: " ++ natStr college_data.length
            ++ " < " ++ natStr cfg.MIN_SAMPLES_FOR_TRAINING)
  else
    let admitted_count := (college_data.filter (fun row => row.admitted)).length
    let rejected_count := college_data.length - admitted_count
    if admitted_count < cfg.MIN_SAMPLES_PER_CLASS then
      (false, "Insufficient accepted samples: " ++ natStr admitted_count
              ++ " < " ++ natStr cfg.MIN_SAMPLES_PER_CLASS)
    else if rejected_count < cfg.MIN_SAMPLES_PER_CLASS then
      (false, "Insufficient rejected samples: " ++ natStr rejected_count
              ++ " < " ++ natStr cfg.MIN_SAMPLES_PER_CLASS)
    else (true, "Ready for training")

/-- The successor of one stored version string: split on `'.'`, parse major
and minor, bump the minor; a parse failure (`ValueError`) or too few parts
(`IndexError`) is caught and yields `"1.0"`. -/
def next_version_of (version : String) : String :=
  match splitDot version.toList with
  | p0 :: p1 :: _ =>
      match pyIntChars p0, pyIntChars p1 with
      | some major, some minor => intStr major ++ "." ++ intStr (minor + 1)
      | _, _ => "1.0"
  | _ => "1.0"

/-- `LDATrainer._get_next_version`: `"1.0"` when no (truthy) metadata
exists, otherwise the bumped stored version. -/
def get_next_version (old : Option Metadata) : String :=
  match old with
  | none => "1.0"
  | some md => next_version_of md.version

/-- The training result dict (section 6 of the spec: failure objects carry
`message` plus optionally `sample_count` or `metrics`; the success object
is the metadata document plus `success`/`message`). -/
structure TrainResult where
  success : Bool
  message : String
  college_id : Int
  sample_count : Option Nat := none
  metrics : Option Metrics := none
  metadata : Option Metadata := none
  deriving DecidableEq

/-- The rows of `prepare_training_data` filtered to one college
(`df[df['college_id'] == college_id]`). -/
def collegeSlice (cfg : Config) (data : List RawRecord) (cid : Int) : List Row :=
  (prepare_training_data cfg data).filter (fun row => row.college_id = some cid)

/-- Feature columns used for training: config.FEATURE_COLUMNS restricted to
the DataFrame's columns (always all twelve once a row exists). -/
def trainFeatureCols : List String :=
  FEATURE_COLUMNS.filter (fun c => rowColumns.contains c)

/-- The feature matrix `X` handed to the sklearn pipeline. -/
def trainX (cfg : Config) (data : List RawRecord) (cid : Int) : List (List (Option ℚ)) :=
  (collegeSlice cfg data cid).map (fun row => trainFeatureCols.map (rowGet row))

/-- The label vector `y`. -/
def trainY (cfg : Config) (data : List RawRecord) (cid : Int) : List Bool :=
  (collegeSlice cfg data cid).map (fun row => row.admitted)

/-- The fitted model, scaler and evaluation metrics for one training call. -/
def fitOutput {M S : Type} (cfg : Config) (oracle : Oracle M S)
    (data : List RawRecord) (cid : Int) : M × S × Metrics :=
  oracle.fit (trainX cfg data cid) (trainY cfg data cid)

/-- The quality-gate failure result (accuracy below threshold):
metrics attached, nothing persisted. -/
def accuracyFailure {M S : Type} (cfg : Config) (oracle : Oracle M S)
    (data : List RawRecord) (cid : Int) : TrainResult :=
  { success := false
    message := "Model accuracy below threshold"
    college_id := cid
    metrics := some (fitOutput cfg oracle data cid).2.2 }

/-- The `joblib.dump` of classifier and scaler (lines 161-162), the first
persistent effect of a successful training call. -/
def dumpFiles {M S : Type} (s : Sys M S) (cid : Int) (m : M) (sc : S) : Sys M S :=
  { s with disk := { s.disk with
      modelFile := fun c => if c = cid then some (Blob.ok m) else s.disk.modelFile c,
      scalerFile := fun c => if c = cid then some (Blob.ok sc) else s.disk.scalerFile c } }

/-- The metadata document a successful training call writes; `old` is the
metadata still on disk when `_get_next_version` reads it. -/
def trainedMetadata {M S : Type} (cfg : Config) (oracle : Oracle M S) (now : Int)
    (cid : Int) (data : List RawRecord) (old : Option Metadata) : Metadata :=
  let mst := fitOutput cfg oracle data cid
  let y := trainY cfg data cid
  let acceptedCount := (y.filter (fun b => b)).length
  { college_id := cid
    trained_at := now
    version := get_next_version old
    sample_count := (collegeSlice cfg data cid).length
    accepted_count := acceptedCount
    rejected_count := y.length - acceptedCount
    -- y.mean(); an empty y would be NaN in numpy, unrepresentable here
    class_balance := if y.length = 0 then 0 else (acceptedCount : ℚ) / (y.length : ℚ)
    feature_columns := trainFeatureCols
    metrics := mst.2.2
    -- zip truncation matches the `i < len(coefs)` guard of the source loop
    feature_importance := trainFeatureCols.zip (oracle.coef mst.1)
    is_deployed := true }

/-- State after a fully successful training call: all three files written,
both trainer caches refreshed. -/
def commitArtifact {M S : Type} (s : Sys M S) (cid : Int) (m : M) (sc : S)
    (md : Metadata) : Sys M S :=
  { disk := { modelFile := fun c => if c = cid then some (Blob.ok m) else s.disk.modelFile c,
              scalerFile := fun c => if c = cid then some (Blob.ok sc) else s.disk.scalerFile c,
              metadataFile := fun c => if c = cid then some (Blob.ok md) else s.disk.metadataFile c }
    trainer := { models := fun c => if c = cid then some m else s.trainer.models c,
                 scalers := fun c => if c = cid then some sc else s.trainer.scalers c }
    pred := s.pred }

/-- The body of `train_model` past the freshness check: data preparation,
per-college slicing, readiness gate, fit/evaluate, quality gate, commit. -/
def train_model_core {M S : Type} (cfg : Config) (oracle : Oracle M S) (now : Int)
    (s : Sys M S) (cid : Int) (data : List RawRecord) :
    Except PyErr TrainResult × Sys M S :=
  let df := prepare_training_data cfg data
  if df.isEmpty then (Except.error (PyErr.keyError "college_id"), s)
  else
    let college_data := collegeSlice cfg data cid
    let ready := check_training_readiness cfg college_data
    if ready.1 = false then
      (Except.ok { success := false, message := ready.2, college_id := cid,
                   sample_count := some college_data.length }, s)
    else
      let mst := fitOutput cfg oracle data cid
      if mst.2.2.accuracy < cfg.MIN_ACCURACY_THRESHOLD then
        (Except.ok (accuracyFailure cfg oracle data cid), s)
      else
        let s1 := dumpFiles s cid mst.1 mst.2.1
        match load_model_metadata s1 cid with
        | Except.error e => (Except.error e, s1)
        | Except.ok old =>
            let md := trainedMetadata cfg oracle now cid data old
            (Except.ok { success := true,
                         message := "Model trained and deployed successfully",
                         college_id := cid, metadata := some md },
             commitArtifact s cid mst.1 mst.2.1 md)

/-- `LDATrainer.train_model`, the training / evaluation / persistence
state machine.  Branches in source order:
1. freshness check — with `force=False` and an existing model file whose
   metadata loads to a truthy dict, the source computes `days_old` and then
   reads `config.MODEL_FRESHNESS_DAYS`, an attribute config.py never
   defines, so the call raises `AttributeError`;
2. `prepare_training_data` — on zero surviving rows `pd.DataFrame([])` has
   no columns and `df['college_id']` raises `KeyError`;
3. readiness failure — structured result, no mutation;
4. quality gate — accuracy below threshold: structured result with
   metrics, no mutation;
5. success — dump classifier and scaler, then build metadata (its version
   read from the not-yet-overwritten metadata file), write it, refresh the
   trainer caches. -/
def train_model {M S : Type} (cfg : Config) (oracle : Oracle M S) (now : Int)
    (s : Sys M S) (cid : Int) (data : List RawRecord) (force : Bool) :
    Except PyErr TrainResult × Sys M S :=
  if force = false ∧ (s.disk.modelFile cid).isSome then
    match load_model_metadata s cid with
    | Except.error e => (Except.error e, s)
    | Except.ok (some _) => (Except.error (PyErr.attributeError "MODEL_FRESHNESS_DAYS"), s)
    | Except.ok none => train_model_core cfg oracle now s cid data
  else train_model_core cfg oracle now s cid data

/-- `LDATrainer.delete_model`: remove the three files if present, evict the
trainer caches, report whether anything was removed. -/
def delete_model {M S : Type} (s : Sys M S) (cid : Int) : Bool × Sys M S :=
  let deleted := (s.disk.modelFile cid).isSome || (s.disk.scalerFile cid).isSome
                 || (s.disk.metadataFile cid).isSome
  (deleted,
   { disk := { modelFile := fun c => if c = cid then none else s.disk.modelFile c,
               scalerFile := fun c => if c = cid then none else s.disk.scalerFile c,
               metadataFile := fun c => if c = cid then none else s.disk.metadataFile c }
     trainer := { models := fun c => if c = cid then none else s.trainer.models c,
                  scalers := fun c => if c = cid then none else s.trainer.scalers c }
     pred := s.pred })

/-! ## Prediction Service (backend/ml-service/prediction_service.py) -/

/-- `PredictionService._is_cache_valid` at wall-clock time `t`. -/
def is_cache_valid {M S : Type} (cfg : Config) (t : ℚ) (s : Sys M S) (cid : Int) : Bool :=
  match s.pred.cache_timestamps cid with
  | none => false
  | some ts => t - ts < cfg.MODEL_CACHE_TTL

/-- `PredictionService._get_cached_model`: serve a valid cache entry, else
load model, scaler and metadata through the trainer (each may raise on a
corrupt file, after the earlier loads already filled the trainer caches);
cache and return the triple only when all three are present. -/
def get_cached_model {M S : Type} (cfg : Config) (t : ℚ) (s : Sys M S) (cid : Int) :
    Except PyErr (Option (M × S × Metadata)) × Sys M S :=
  if (s.pred.model_cache cid).isSome && is_cache_valid cfg t s cid then
    (Except.ok (s.pred.model_cache cid), s)
  else
    let lm := load_model s cid
    match lm.1 with
    | Except.error e => (Except.error e, lm.2)
    | Except.ok mo =>
        let ls := load_scaler lm.2 cid
        match ls.1 with
        | Except.error e => (Except.error e, ls.2)
        | Except.ok so =>
            match load_model_metadata ls.2 cid with
            | Except.error e => (Except.error e, ls.2)
            | Except.ok mdo =>
                match mo, so, mdo with
                | some m, some sc, some md =>
                    (Except.ok (some (m, sc, md)),
                     { ls.2 with pred :=
                        { model_cache := fun c => if c = cid then some (m, sc, md) else ls.2.pred.model_cache c,
                          cache_timestamps := fun c => if c = cid then some t else ls.2.pred.cache_timestamps c } })
                | _, _, _ => (Except.ok none, ls.2)

/-- `PredictionService._categorize_chance`. -/
def categorize_chance (probability : ℚ) (acceptance_rate : Option ℚ) : String :=
  if (match acceptance_rate with | some ar => decide (ar < 15) | none => false) then
    if probability ≥ 1/2 then "Target"
    else if probability ≥ 1/4 then "Reach"
    else "Far Reach"
  else
    if probability ≥ 7/10 then "Safety"
    else if probability ≥ 2/5 then "Target"
    else if probability ≥ 1/5 then "Reach"
    else "Far Reach"

/-- `PredictionService._calculate_confidence`. -/
def calculate_confidence (md : Metadata) (f : Features) : ℚ :=
  let confidence : ℚ := 1/2 + (md.metrics.accuracy - 1/2) * (3/5)
  let confidence := confidence +
    (if md.sample_count ≥ 1000 then (1/5 : ℚ)
     else if md.sample_count ≥ 500 then 3/20
     else if md.sample_count ≥ 100 then 1/10
     else if md.sample_count ≥ 50 then 1/20
     else 0)
  let complete := ((featValues f).filter (fun v => v ≠ none ∧ v ≠ some 0)).length
  let confidence := confidence + ((complete : ℚ) / ((featValues f).length : ℚ)) * (1/5)
  min (max confidence (1/10)) (19/20)

/-- `PredictionService._confidence_level`. -/
def confidence_level (confidence : ℚ) : String :=
  if confidence ≥ 4/5 then "high"
  else if confidence ≥ 3/5 then "medium"
  else "low"

/-- One entry of the `factors` list (ML contributions carry
`contribution`/`impact_level`/`raw_importance`; rule-based factors carry
`details`). -/
structure Factor where
  factor : String
  contribution : Option ℚ := none
  impact : String
  impact_level : Option String := none
  raw_importance : Option ℚ := none
  details : Option String := none
  deriving DecidableEq

/-- The `model_info` sub-dict of a prediction response. -/
structure ModelInfo where
  version : Option String := none
  trained_at : Option Int := none
  accuracy : Option ℚ := none
  sample_count : Option Nat := none
  note : Option String := none
  reason : Option String := none
  deriving DecidableEq

/-- A prediction response. -/
structure PredResult where
  success : Bool := true
  prediction_type : String
  probability : ℚ
  percentage : Int
  category : String
  confidence : ℚ
  confidence_level : String
  factors : List Factor
  model_info : ModelInfo
  fallback_reason : Option String := none
  deriving DecidableEq

/-- Fallback display name: `col.replace('_', ' ').title()` (Python `title()`
restarts capitalization at every non-alphabetic character; only the
space-separated case occurs for feature-column names). -/
def displayTitle (s : String) : String :=
  String.intercalate " "
    (((s.replace "_" " ").splitOn " ").map (fun w => w.toLower.capitalize))

/-- Sort key of the factors list: absolute rounded contribution. -/
def factorKey (f : Factor) : ℚ := |(f.contribution.getD 0)|

/-- Stable descending insertion (Python `list.sort(key=..., reverse=True)`
keeps the original order of equal keys). -/
def insertFactor (x : Factor) : List Factor → List Factor
  | [] => [x]
  | y :: ys => if factorKey y > factorKey x then y :: insertFactor x ys else x :: y :: ys

def sortFactors : List Factor → List Factor
  | [] => []
  | x :: xs => insertFactor x (sortFactors xs)

/-- `PredictionService._calculate_contributions`: per-feature contribution
is scaled value times linear coefficient; direction by a ±0.1 threshold and
strength by ±0.3 (from the unrounded value, the stored contribution is
rounded to 3 digits); indices beyond either array are skipped, the result
is sorted by absolute contribution descending and capped at 8. -/
def calculate_contributions (xs : List ℚ) (coefs : List ℚ)
    (feature_cols : List String) (importance : List (String × ℚ)) : List Factor :=
  let entries := feature_cols.zip (coefs.zip xs)
  let contributions := entries.map (fun e =>
    let col := e.1
    let contribution := e.2.1 * e.2.2
    let display_name := (assocGet col FEATURE_IMPORTANCE_NAMES).getD (displayTitle col)
    let impact : String :=
      if contribution > 1/10 then "positive"
      else if contribution < -(1/10) then "negative"
      else "neutral"
    let impact_level : String :=
      if contribution > 1/10 then (if contribution > 3/10 then "strong" else "moderate")
      else if contribution < -(1/10) then (if contribution < -(3/10) then "strong" else "moderate")
      else "minimal"
    { factor := display_name
      contribution := some (pyRound3 contribution)
      impact := impact
      impact_level := some impact_level
      raw_importance := some ((assocGet col importance).getD 0) : Factor })
  (sortFactors contributions).take 8

/-- `PredictionService._rule_based_prediction`: additive scoring from a base
of 50, selectivity scaling, clamp to [5,95], fixed 0.4 confidence. -/
def rule_based_prediction (cfg : Config) (p : StudentProfile) (c : College) : PredResult :=
  let acceptance_rate := c.acceptance_rate.getD 50
  let gpa := pyOrQ p.gpa_unweighted p.gpa_weighted
  let avg_gpa := c.average_gpa.getD (7/2)
  let gpaPart : ℚ × List Factor :=
    if truthyQ gpa then
      let g := gpa.getD 0
      let gpa_diff := g - avg_gpa
      if gpa_diff ≥ 3/10 then
        (12, [{ factor := "GPA", impact := "positive", details := some "is above average" }])
      else if gpa_diff ≥ 0 then
        (5, [{ factor := "GPA", impact := "positive", details := some "matches college profile" }])
      else if gpa_diff ≥ -(3/10) then
        (-5, [{ factor := "GPA", impact := "neutral", details := some "is slightly below average" }])
      else
        (-10, [{ factor := "GPA", impact := "negative", details := some "is below average" }])
    else (0, [])
  let testPart : ℚ × List Factor :=
    if truthyI p.sat_total || truthyI p.act_composite then
      let test_pct := get_test_score_percentile p.sat_total p.act_composite
      if test_pct ≥ 90 then
        (15, [{ factor := "Test Scores", impact := "positive", details := some "Excellent test scores" }])
      else if test_pct ≥ 75 then
        (8, [{ factor := "Test Scores", impact := "positive", details := some "Strong test scores" }])
      else if test_pct ≥ 50 then
        (0, [{ factor := "Test Scores", impact := "neutral", details := some "Average test scores" }])
      else
        (-8, [{ factor := "Test Scores", impact := "negative", details := some "Test scores below average" }])
    else (0, [])
  let tier1 := p.activity_tier1_count.getD 0
  let tier2 := p.activity_tier2_count.getD 0
  let actPart : ℚ × List Factor :=
    if tier1 ≥ 2 then
      (10, [{ factor := "Extracurriculars", impact := "positive",
              details := some "National/international achievements" }])
    else if tier1 ≥ 1 ∨ tier2 ≥ 2 then
      (5, [{ factor := "Extracurriculars", impact := "positive",
             details := some "Strong leadership and achievements" }])
    else (0, [])
  let legacyPart : ℚ × List Factor :=
    if p.is_legacy then
      (8, [{ factor := "Legacy", impact := "positive", details := some "Legacy applicant advantage" }])
    else (0, [])
  let firstGenPart : ℚ × List Factor :=
    if p.is_first_generation then
      (3, [{ factor := "First Generation", impact := "positive", details := some "First-gen consideration" }])
    else (0, [])
  let score : ℚ := 50 + gpaPart.1 + testPart.1 + actPart.1 + legacyPart.1 + firstGenPart.1
  let factors := gpaPart.2 ++ testPart.2 ++ actPart.2 ++ legacyPart.2 ++ firstGenPart.2
  let score :=
    if acceptance_rate < 10 then score * (3/5)
    else if acceptance_rate < 20 then score * (3/4)
    else if acceptance_rate < 30 then score * (17/20)
    else score
  let probability := max (min score 95) 5 / 100
  { success := true
    prediction_type := "rule_based"
    probability := probability
    percentage := pyRound (probability * 100)
    category := categorize_chance probability (some acceptance_rate)
    confidence := 2/5
    confidence_level := "low"
    factors := factors
    model_info :=
      { note := some "ML model not available. Using rule-based estimation."
        reason := some ("Insufficient training data. Needs at least "
          ++ natStr cfg.MIN_SAMPLES_FOR_TRAINING ++ " samples with "
          ++ natStr cfg.MIN_SAMPLES_PER_CLASS ++ " accepted and "
          ++ natStr cfg.MIN_SAMPLES_PER_CLASS ++ " rejected outcomes.") } }

/-- The body of the `try` block in `PredictionService.predict` (everything
after the artifact triple has been resolved): build and order features,
scale, score, explain, categorize.  Any `Except.error` produced here is
what the source catches with `except Exception`. -/
def predict_ml_body {M S : Type} (oracle : Oracle M S) (p : StudentProfile)
    (c : College) (m : M) (sc : S) (md : Metadata) : Except String PredResult := do
  let features := prepare_prediction_input p c
  let feature_cols := md.feature_columns
  let x := feature_cols.map (featGet features)
  let xs ← oracle.transform sc x
  let probs ← oracle.predictProba m xs
  let admit_prob ←
    match probs with
    | [] => Except.error "IndexError: index 0 is out of bounds"
    | [p0] => Except.ok p0
    | _ :: p1 :: _ => Except.ok p1
  let contributions := calculate_contributions xs (oracle.coef m) feature_cols md.feature_importance
  let category := categorize_chance admit_prob c.acceptance_rate
  let confidence := calculate_confidence md features
  Except.ok
    { success := true
      prediction_type := "ml_lda"
      probability := admit_prob
      percentage := pyRound (admit_prob * 100)
      category := category
      confidence := confidence
      confidence_level := confidence_level confidence
      factors := contributions
      model_info :=
        { version := some md.version
          trained_at := some md.trained_at
          accuracy := some md.metrics.accuracy
          sample_count := some md.sample_count } }

/-- `PredictionService.predict`.  The artifact resolution
(`_get_cached_model`, including the trainer-side `joblib.load`s) happens
*before* the `try`, so an exception there propagates to the caller; an
exception inside the ML body is caught and turned into the rule-based
fallback annotated with `fallback_reason`. -/
def predict {M S : Type} (cfg : Config) (oracle : Oracle M S) (t : ℚ)
    (s : Sys M S) (p : StudentProfile) (c : College) :
    Except PyErr PredResult × Sys M S :=
  match get_cached_model cfg t s c.id with
  | (Except.error e, s1) => (Except.error e, s1)
  | (Except.ok none, s1) => (Except.ok (rule_based_prediction cfg p c), s1)
  | (Except.ok (some (m, sc, md)), s1) =>
      match predict_ml_body oracle p c m sc md with
      | Except.ok res => (Except.ok res, s1)
      | Except.error e =>
          (Except.ok { rule_based_prediction cfg p c with fallback_reason := some e }, s1)

/-- `PredictionService.clear_cache`: `if college_id:` is a Python
truthiness test, so `None` *and* the id `0` both take the clear-everything
branch. -/
def clear_cache {M S : Type} (s : Sys M S) (college_id : Option Int) : Sys M S :=
  match college_id with
  | some v =>
      if v ≠ 0 then
        { s with pred :=
            { model_cache := fun c => if c = v then none else s.pred.model_cache c
              cache_timestamps := fun c => if c = v then none else s.pred.cache_timestamps c } }
      else
        { s with pred := { model_cache := fun _ => none, cache_timestamps := fun _ => none } }
  | none =>
      { s with pred := { model_cache := fun _ => none, cache_timestamps := fun _ => none } }

/-! ## Retraining Scheduler (backend/ml-service/retraining_scheduler.py) -/

/-- One aggregate row of the scheduler's GROUP BY query (the external data
source): per-college total, accepted and rejected counts; `latest` is
selected but never used. -/
structure AggRow where
  college_id : Int
  total : Nat
  accepted : Nat
  rejected : Nat
  latest : Int := 0
  deriving DecidableEq

/-- One entry of the `colleges_to_retrain` result. -/
structure RetrainEntry where
  college_id : Int
  total_samples : Nat
  accepted_count : Nat
  rejected_count : Nat
  reason : String
  current_model : Option Metadata
  deriving DecidableEq

/-- The per-row body of the loop in
`RetrainingScheduler.get_colleges_needing_retraining` (after the SQL
`HAVING total_samples >= MIN_SAMPLES_FOR_TRAINING` filter):
class-balance gate, then no-model / age ≥ 30 days / data grown strictly
beyond 1.2 × the recorded sample count, with one reason string each. -/
def retrain_row_decision (cfg : Config) (now : Int)
    (mdLookup : Int → Option Metadata) (r : AggRow) : Option RetrainEntry :=
  if r.accepted < cfg.MIN_SAMPLES_PER_CLASS ∨ r.rejected < cfg.MIN_SAMPLES_PER_CLASS then none
  else
    match mdLookup r.college_id with
    | none =>
        some { college_id := r.college_id, total_samples := r.total,
               accepted_count := r.accepted, rejected_count := r.rejected,
               reason := "No existing model", current_model := none }
    | some md =>
        let days_since_training := now - md.trained_at
        if days_since_training ≥ 30 then
          some { college_id := r.college_id, total_samples := r.total,
                 accepted_count := r.accepted, rejected_count := r.rejected,
                 reason := "Model is " ++ intStr days_since_training ++ " days old",
                 current_model := some md }
        else if (r.total : ℚ) > (md.sample_count : ℚ) * (6/5) then
          some { college_id := r.college_id, total_samples := r.total,
                 accepted_count := r.accepted, rejected_count := r.rejected,
                 reason := "Significant new data (" ++ natStr r.total ++ " vs "
                           ++ natStr md.sample_count ++ ")",
                 current_model := some md }
        else none

/-- `RetrainingScheduler.get_colleges_needing_retraining` over the
aggregate rows returned by the external data source (metadata read through
`lda_trainer.load_model_metadata`, here a pure lookup). -/
def get_colleges_needing_retraining (cfg : Config) (now : Int)
    (mdLookup : Int → Option Metadata) (rows : List AggRow) : List RetrainEntry :=
  (rows.filter (fun r => cfg.MIN_SAMPLES_FOR_TRAINING ≤ r.total)).filterMap
    (retrain_row_decision cfg now mdLookup)

/-! ## Reachable states and invariants -/

/-- The metadata currently persisted for a college (loadable content only). -/
def diskMetadata {M S : Type} (s : Sys M S) (c : Int) : Option Metadata :=
  match s.disk.metadataFile c with
  | some (Blob.ok md) => some md
  | _ => none

/-- The complete persisted artifact triple for a college, when classifier,
scaler and metadata are all present and loadable. -/
def diskArtifact {M S : Type} (s : Sys M S) (c : Int) : Option (M × S × Metadata) :=
  match s.disk.modelFile c, s.disk.scalerFile c, s.disk.metadataFile c with
  | some (Blob.ok m), some (Blob.ok sc), some (Blob.ok md) => some (m, sc, md)
  | _, _, _ => none

/-- State invariant: the trainer caches agree with the persisted files, and
no persisted file is corrupt.  (Operations of the service itself only ever
write loadable files, and refresh or evict the caches together with the
files.) -/
def CacheConsistent {M S : Type} (s : Sys M S) : Prop :=
  (∀ c m, s.trainer.models c = some m → s.disk.modelFile c = some (Blob.ok m))
  ∧ (∀ c sc, s.trainer.scalers c = some sc → s.disk.scalerFile c = some (Blob.ok sc))
  ∧ (∀ c, s.disk.modelFile c ≠ some Blob.corrupt)
  ∧ (∀ c, s.disk.scalerFile c ≠ some Blob.corrupt)
  ∧ (∀ c, s.disk.metadataFile c ≠ some Blob.corrupt)

/-- Persisted version strings are canonical: `"1." ++ str(n)`. -/
def vstr (n : Nat) : String := "1." ++ natStr n

def VersionsCanonical {M S : Type} (s : Sys M S) : Prop :=
  ∀ c md, diskMetadata s c = some md → ∃ n, md.version = vstr n

/-- States reachable from a fresh process through the public operations.
`batch_predict` iterates `predict`, and the scheduler's retraining cycle
composes `train_model` and `clear_cache`, so both are covered by the
listed steps. -/
inductive Reachable {M S : Type} (cfg : Config) (oracle : Oracle M S) : Sys M S → Prop where
  | init : Reachable cfg oracle emptySys
  | train (s : Sys M S) (now : Int) (cid : Int) (data : List RawRecord) (force : Bool) :
      Reachable cfg oracle s →
      Reachable cfg oracle (train_model cfg oracle now s cid data force).2
  | loadM (s : Sys M S) (cid : Int) :
      Reachable cfg oracle s → Reachable cfg oracle (load_model s cid).2
  | loadS (s : Sys M S) (cid : Int) :
      Reachable cfg oracle s → Reachable cfg oracle (load_scaler s cid).2
  | predictStep (s : Sys M S) (t : ℚ) (p : StudentProfile) (c : College) :
      Reachable cfg oracle s → Reachable cfg oracle (predict cfg oracle t s p c).2
  | clear (s : Sys M S) (arg : Option Int) :
      Reachable cfg oracle s → Reachable cfg oracle (clear_cache s arg)
  | delete (s : Sys M S) (cid : Int) :
      Reachable cfg oracle s → Reachable cfg oracle (delete_model s cid).2

theorem load_model_metadata_of_consistent {M S : Type} {s : Sys M S}
    (h : CacheConsistent s) (cid : Int) :
    load_model_metadata s cid = Except.ok (diskMetadata s cid) := by
  unfold load_model_metadata diskMetadata
  cases hm : s.disk.metadataFile cid with
  | none => rfl
  | some b =>
      cases b with
      | ok md => rfl
      | corrupt => exact absurd hm (h.2.2.2.2 cid)

theorem load_model_preserves {M S : Type} {s : Sys M S}
    (h : CacheConsistent s) (cid : Int) :
    CacheConsistent (load_model s cid).2 ∧ (load_model s cid).2.disk = s.disk
    ∧ (load_model s cid).2.pred = s.pred := by
  obtain ⟨h1, h2, h3, h4, h5⟩ := h
  unfold load_model
  cases hm : s.trainer.models cid with
  | some m => exact ⟨⟨h1, h2, h3, h4, h5⟩, rfl, rfl⟩
  | none =>
      cases hd : s.disk.modelFile cid with
      | none => exact ⟨⟨h1, h2, h3, h4, h5⟩, rfl, rfl⟩
      | some b =>
          cases b with
          | corrupt => exact ⟨⟨h1, h2, h3, h4, h5⟩, rfl, rfl⟩
          | ok m =>
              refine ⟨⟨?_, h2, h3, h4, h5⟩, rfl, rfl⟩
              intro c m2 hc
              by_cases hcc : c = cid
              · subst hcc
                simp only [if_pos rfl] at hc
                cases hc
                exact hd
              · simp only [if_neg hcc] at hc
                exact h1 c m2 hc

theorem load_scaler_preserves {M S : Type} {s : Sys M S}
    (h : CacheConsistent s) (cid : Int) :
    CacheConsistent (load_scaler s cid).2 ∧ (load_scaler s cid).2.disk = s.disk
    ∧ (load_scaler s cid).2.pred = s.pred := by
  obtain ⟨h1, h2, h3, h4, h5⟩ := h
  unfold load_scaler
  cases hm : s.trainer.scalers cid with
  | some m => exact ⟨⟨h1, h2, h3, h4, h5⟩, rfl, rfl⟩
  | none =>
      cases hd : s.disk.scalerFile cid with
      | none => exact ⟨⟨h1, h2, h3, h4, h5⟩, rfl, rfl⟩
      | some b =>
          cases b with
          | corrupt => exact ⟨⟨h1, h2, h3, h4, h5⟩, rfl, rfl⟩
          | ok sc =>
              refine ⟨⟨h1, ?_, h3, h4, h5⟩, rfl, rfl⟩
              intro c sc2 hc
              by_cases hcc : c = cid
              · subst hcc
                simp only [if_pos rfl] at hc
                cases hc
                exact hd
              · simp only [if_neg hcc] at hc
                exact h2 c sc2 hc

theorem intStr_ofNat (n : Nat) : intStr (n : Int) = natStr n := by
  unfold intStr intChars natStr
  rw [if_neg (by omega), Int.natAbs_ofNat]

theorem vstr_toList (n : Nat) : (vstr n).toList = '1' :: '.' :: natChars n := by
  simp [vstr, natStr, String.toList]

/-- `_get_next_version` on no existing metadata. -/
theorem get_next_version_none : get_next_version none = "1.0" := rfl

/-- `_get_next_version` bumps the minor component of a canonical version. -/
theorem get_next_version_vstr (md : Metadata) (k : Nat) (h : md.version = vstr k) :
    get_next_version (some md) = vstr (k + 1) := by
  show next_version_of md.version = vstr (k + 1)
  unfold next_version_of
  rw [h, vstr_toList]
  have hsplit : splitDot ('1' :: '.' :: natChars k) = ['1'] :: splitDot (natChars k) := by
    have := splitDot_cons_dot ['1'] (natChars k) (by decide)
    simpa using this
  rw [hsplit, splitDot_no_dot _ (natChars_no_dot k)]
  have h1 : pyIntChars ['1'] = some 1 := by decide
  simp only [h1, pyIntChars_natChars k]
  have hone : intStr 1 = "1" := by decide
  have hk : ((k : Int) + 1) = ((k + 1 : Nat) : Int) := by push_cast; ring
  rw [hk, intStr_ofNat, hone]
  unfold vstr
  rw [show ("1" : String) ++ "." = "1." from by decide]

theorem vstr_zero : vstr 0 = "1.0" := by decide

def Good {M S : Type} (s : Sys M S) : Prop := CacheConsistent s ∧ VersionsCanonical s

theorem commitArtifact_good {M S : Type} {s : Sys M S} (h : Good s)
    (cid : Int) (m : M) (sc : S) (md : Metadata) (hmd : ∃ n, md.version = vstr n) :
    Good (commitArtifact s cid m sc md) := by
  obtain ⟨⟨h1, h2, h3, h4, h5⟩, hv⟩ := h
  refine ⟨⟨?_, ?_, ?_, ?_, ?_⟩, ?_⟩
  · intro c m2 hc
    by_cases hcc : c = cid
    · subst hcc
      simp only [commitArtifact, if_pos rfl] at hc ⊢
      cases hc
      rfl
    · simp only [commitArtifact, if_neg hcc] at hc ⊢
      exact h1 c m2 hc
  · intro c sc2 hc
    by_cases hcc : c = cid
    · subst hcc
      simp only [commitArtifact, if_pos rfl] at hc ⊢
      cases hc
      rfl
    · simp only [commitArtifact, if_neg hcc] at hc ⊢
      exact h2 c sc2 hc
  · intro c
    by_cases hcc : c = cid
    · subst hcc
      simp [commitArtifact]
    · simp only [commitArtifact, if_neg hcc]
      exact h3 c
  · intro c
    by_cases hcc : c = cid
    · subst hcc
      simp [commitArtifact]
    · simp only [commitArtifact, if_neg hcc]
      exact h4 c
  · intro c
    by_cases hcc : c = cid
    · subst hcc
      simp [commitArtifact]
    · simp only [commitArtifact, if_neg hcc]
      exact h5 c
  · intro c md2 hc
    unfold diskMetadata commitArtifact at hc
    by_cases hcc : c = cid
    · simp only [hcc, if_pos rfl] at hc
      cases hc
      exact hmd
    · simp only [if_neg hcc] at hc
      exact hv c md2 hc

theorem dumpFiles_metadataFile {M S : Type} (s : Sys M S) (cid : Int) (m : M) (sc : S) :
    (dumpFiles s cid m sc).disk.metadataFile = s.disk.metadataFile := rfl

theorem train_model_good {M S : Type} {cfg : Config} {oracle : Oracle M S}
    {s : Sys M S} (h : Good s) (now : Int) (cid : Int) (data : List RawRecord)
    (force : Bool) : Good (train_model cfg oracle now s cid data force).2 := by
  have hmeta : load_model_metadata s cid = Except.ok (diskMetadata s cid) :=
    load_model_metadata_of_consistent h.1 cid
  have hmeta1 : ∀ m sc, load_model_metadata (dumpFiles s cid m sc) cid
      = Except.ok (diskMetadata s cid) := by
    intro m sc
    unfold load_model_metadata at hmeta ⊢
    rw [dumpFiles_metadataFile]
    exact hmeta
  have hnext : ∃ n, get_next_version (diskMetadata s cid) = vstr n := by
    cases hdm : diskMetadata s cid with
    | none => exact ⟨0, by rw [get_next_version_none, vstr_zero]⟩
    | some mdOld =>
        obtain ⟨k, hk⟩ := h.2 cid mdOld hdm
        exact ⟨k + 1, get_next_version_vstr mdOld k hk⟩
  have hsucc : ∀ mo : Option Metadata, ∃ n,
      (trainedMetadata cfg oracle now cid data (diskMetadata s cid)).version = vstr n := by
    intro mo
    unfold trainedMetadata
    exact hnext
  unfold train_model train_model_core
  dsimp only
  split
  · rw [hmeta]
    cases hdm : diskMetadata s cid with
    | some mdOld => exact h
    | none =>
        dsimp only
        split
        · exact h
        · split
          · exact h
          · split
            · exact h
            · rw [hmeta1]
              dsimp only
              exact commitArtifact_good h cid _ _ _ (hsucc none)
  · split
    · exact h
    · split
      · exact h
      · split
        · exact h
        · rw [hmeta1]
          dsimp only
          exact commitArtifact_good h cid _ _ _ (hsucc none)

theorem get_cached_model_preserves {M S : Type} (cfg : Config) (t : ℚ)
    {s : Sys M S} (h : CacheConsistent s) (cid : Int) :
    CacheConsistent (get_cached_model cfg t s cid).2
    ∧ (get_cached_model cfg t s cid).2.disk = s.disk := by
  unfold get_cached_model
  split
  · exact ⟨h, rfl⟩
  · dsimp only
    obtain ⟨hc1, hd1, _⟩ := load_model_preserves h cid
    obtain ⟨hc2, hd2, _⟩ := load_scaler_preserves hc1 cid
    have hd21 : (load_scaler (load_model s cid).2 cid).2.disk = s.disk := hd2.trans hd1
    cases hr1 : (load_model s cid).1 with
    | error e => exact ⟨hc1, hd1⟩
    | ok mo =>
        dsimp only
        cases hr2 : (load_scaler (load_model s cid).2 cid).1 with
        | error e => exact ⟨hc2, hd21⟩
        | ok so =>
            dsimp only
            cases hmd : load_model_metadata (load_scaler (load_model s cid).2 cid).2 cid with
            | error e => exact ⟨hc2, hd21⟩
            | ok mdo =>
                dsimp only
                cases mo with
                | none => cases so <;> cases mdo <;> exact ⟨hc2, hd21⟩
                | some m =>
                    cases so with
                    | none => cases mdo <;> exact ⟨hc2, hd21⟩
                    | some sc =>
                        cases mdo with
                        | none => exact ⟨hc2, hd21⟩
                        | some md =>
                            exact ⟨⟨hc2.1, hc2.2.1, hc2.2.2.1, hc2.2.2.2.1, hc2.2.2.2.2⟩, hd21⟩

theorem predict_preserves {M S : Type} {cfg : Config} {oracle : Oracle M S}
    {t : ℚ} {s : Sys M S} (h : CacheConsistent s) (p : StudentProfile) (c : College) :
    CacheConsistent (predict cfg oracle t s p c).2
    ∧ (predict cfg oracle t s p c).2.disk = s.disk := by
  unfold predict
  have hp := get_cached_model_preserves cfg t h c.id
  rcases hg : get_cached_model cfg t s c.id with ⟨r, s1⟩
  rw [hg] at hp
  cases r with
  | error e => exact hp
  | ok mo =>
      cases mo with
      | none => exact hp
      | some triple =>
          rcases triple with ⟨m, sc, md⟩
          dsimp only
          cases predict_ml_body oracle p c m sc md with
          | ok res => exact hp
          | error e => exact hp

theorem clear_cache_preserves {M S : Type} (s : Sys M S) (arg : Option Int) :
    (clear_cache s arg).disk = s.disk ∧ (clear_cache s arg).trainer = s.trainer := by
  unfold clear_cache
  cases arg with
  | none => exact ⟨rfl, rfl⟩
  | some v =>
      dsimp only
      split
      · exact ⟨rfl, rfl⟩
      · exact ⟨rfl, rfl⟩

theorem delete_model_good {M S : Type} {s : Sys M S} (h : Good s) (cid : Int) :
    Good (delete_model s cid).2 := by
  obtain ⟨⟨h1, h2, h3, h4, h5⟩, hv⟩ := h
  refine ⟨⟨?_, ?_, ?_, ?_, ?_⟩, ?_⟩
  · intro c m hc
    unfold delete_model at hc ⊢
    by_cases hcc : c = cid
    · simp only [hcc, if_pos rfl] at hc
      cases hc
    · simp only [if_neg hcc] at hc ⊢
      exact h1 c m hc
  · intro c sc hc
    unfold delete_model at hc ⊢
    by_cases hcc : c = cid
    · simp only [hcc, if_pos rfl] at hc
      cases hc
    · simp only [if_neg hcc] at hc ⊢
      exact h2 c sc hc
  · intro c
    unfold delete_model
    by_cases hcc : c = cid
    · simp [hcc]
    · simp only [if_neg hcc]
      exact h3 c
  · intro c
    unfold delete_model
    by_cases hcc : c = cid
    · simp [hcc]
    · simp only [if_neg hcc]
      exact h4 c
  · intro c
    unfold delete_model
    by_cases hcc : c = cid
    · simp [hcc]
    · simp only [if_neg hcc]
      exact h5 c
  · intro c md hc
    unfold diskMetadata delete_model at hc
    by_cases hcc : c = cid
    · simp only [hcc, if_pos rfl] at hc
      cases hc
    · simp only [if_neg hcc] at hc
      exact hv c md hc

/-- Every reachable state satisfies the cache-consistency and
canonical-version invariants. -/
theorem reachable_good {M S : Type} {cfg : Config} {oracle : Oracle M S}
    {s : Sys M S} (h : Reachable cfg oracle s) : Good s := by
  induction h with
  | init =>
      refine ⟨⟨?_, ?_, ?_, ?_, ?_⟩, ?_⟩ <;> intro c <;> simp [emptySys, diskMetadata]
  | train s now cid data force _ ih => exact train_model_good ih now cid data force
  | loadM s cid _ ih =>
      obtain ⟨hl, hd, _⟩ := load_model_preserves ih.1 cid
      refine ⟨hl, ?_⟩
      intro c md hc
      unfold diskMetadata at hc
      rw [hd] at hc
      exact ih.2 c md hc
  | loadS s cid _ ih =>
      obtain ⟨hl, hd, _⟩ := load_scaler_preserves ih.1 cid
      refine ⟨hl, ?_⟩
      intro c md hc
      unfold diskMetadata at hc
      rw [hd] at hc
      exact ih.2 c md hc
  | predictStep s t p c _ ih =>
      obtain ⟨hl, hd⟩ := predict_preserves ih.1 p c
      refine ⟨hl, ?_⟩
      intro c2 md hc
      unfold diskMetadata at hc
      rw [hd] at hc
      exact ih.2 c2 md hc
  | clear s arg _ ih =>
      obtain ⟨hd, ht⟩ := clear_cache_preserves s arg
      refine ⟨⟨?_, ?_, ?_, ?_, ?_⟩, ?_⟩
      · intro c m hc
        rw [ht] at hc
        rw [hd]
        exact ih.1.1 c m hc
      · intro c sc hc
        rw [ht] at hc
        rw [hd]
        exact ih.1.2.1 c sc hc
      · intro c
        rw [hd]
        exact ih.1.2.2.1 c
      · intro c
        rw [hd]
        exact ih.1.2.2.2.1 c
      · intro c
        rw [hd]
        exact ih.1.2.2.2.2 c
      · intro c md hc
        unfold diskMetadata at hc
        rw [hd] at hc
        exact ih.2 c md hc
  | delete s cid _ ih => exact delete_model_good ih cid

/-! ## Claims -/

/-- C9: GPA normalization is scale-invariant — for `x ∈ [0,4]`,
`normalize_gpa(x, "4.0")`, `normalize_gpa(1.25x, "5.0")` and
`normalize_gpa(25x, "100")` produce the same normalized value (exactly, in
rational arithmetic), and for every non-absent input under every declared
scale the result lies in `[0, 4]`. -/
theorem normalize_gpa_scale_invariant (x : ℚ) (h0 : 0 ≤ x) (h4 : x ≤ 4) :
    normalize_gpa (some x) "4.0" = some x
    ∧ normalize_gpa (some (5/4 * x)) "5.0" = some x
    ∧ normalize_gpa (some (25 * x)) "100" = some x
    ∧ (∀ (g : ℚ) (scale : String), ∃ y,
         normalize_gpa (some g) scale = some y ∧ 0 ≤ y ∧ y ≤ 4) := by
  refine ⟨?_, ?_, ?_, ?_⟩
  · have hc : ¬(("4.0" : String) = "4.0" ∧ x > 9/2) := by
      rintro ⟨-, hx⟩
      linarith
    unfold normalize_gpa
    dsimp only
    rw [if_neg hc, show gpaScaleMax "4.0" = 4 from rfl]
    have hv : (x - 0) / (4 - 0 : ℚ) * 4 = x := by ring
    rw [hv, max_eq_left h0, min_eq_left h4]
  · have hc : ¬(("5.0" : String) = "4.0" ∧ (5/4 * x : ℚ) > 9/2) := by
      rintro ⟨hs, -⟩
      exact absurd hs (by decide)
    unfold normalize_gpa
    dsimp only
    rw [if_neg hc, show gpaScaleMax "5.0" = 5 from rfl]
    have hv : (5/4 * x - 0) / (5 - 0 : ℚ) * 4 = x := by ring
    rw [hv, max_eq_left h0, min_eq_left h4]
  · have hc : ¬(("100" : String) = "4.0" ∧ (25 * x : ℚ) > 9/2) := by
      rintro ⟨hs, -⟩
      exact absurd hs (by decide)
    unfold normalize_gpa
    dsimp only
    rw [if_neg hc, show gpaScaleMax "100" = 100 from rfl]
    have hv : (25 * x - 0) / (100 - 0 : ℚ) * 4 = x := by ring
    rw [hv, max_eq_left h0, min_eq_left h4]
  · intro g scale
    refine ⟨_, rfl, ?_, ?_⟩
    · exact le_min (le_max_right _ 0) (by norm_num)
    · exact min_le_right _ 4

/-- Witness for C9 at `x = 3` (so `3.75` on the 5-point scale and `75` on
the 100-point scale). -/
theorem normalize_gpa_scale_invariant_witness :
    normalize_gpa (some 3) "4.0" = some 3
    ∧ normalize_gpa (some (5/4 * 3)) "5.0" = some 3
    ∧ normalize_gpa (some (25 * 3)) "100" = some 3 :=
  ⟨(normalize_gpa_scale_invariant 3 (by norm_num) (by norm_num)).1,
   (normalize_gpa_scale_invariant 3 (by norm_num) (by norm_num)).2.1,
   (normalize_gpa_scale_invariant 3 (by norm_num) (by norm_num)).2.2.1⟩

/-- Band characterization of the `<15%` branch of `_categorize_chance`. -/
theorem selective_bands (p : ℚ) :
    ((if p ≥ 1/2 then "Target" else if p ≥ 1/4 then "Reach" else "Far Reach") = "Target" ↔ 1/2 ≤ p)
    ∧ ((if p ≥ 1/2 then "Target" else if p ≥ 1/4 then "Reach" else "Far Reach") = "Reach" ↔ 1/4 ≤ p ∧ p < 1/2)
    ∧ ((if p ≥ 1/2 then "Target" else if p ≥ 1/4 then "Reach" else "Far Reach") = "Far Reach" ↔ p < 1/4) := by
  by_cases h2 : (1:ℚ)/2 ≤ p
  · rw [if_pos (by exact h2)]
    exact ⟨iff_of_true rfl h2,
           iff_of_false (by decide) (fun hc => absurd h2 (not_le.mpr hc.2)),
           iff_of_false (by decide) (fun hc => absurd (le_trans (by norm_num) h2) (not_le.mpr hc))⟩
  · rw [if_neg (by exact h2)]
    by_cases h4 : (1:ℚ)/4 ≤ p
    · rw [if_pos (by exact h4)]
      exact ⟨iff_of_false (by decide) (fun hc => h2 hc),
             iff_of_true rfl ⟨h4, lt_of_not_le h2⟩,
             iff_of_false (by decide) (fun hc => absurd h4 (not_le.mpr hc))⟩
    · rw [if_neg (by exact h4)]
      exact ⟨iff_of_false (by decide) (fun hc => h2 hc),
             iff_of_false (by decide) (fun hc => h4 hc.1),
             iff_of_true rfl (lt_of_not_le h4)⟩

/-- Band characterization of the general branch of `_categorize_chance`. -/
theorem general_bands (p : ℚ) :
    ((if p ≥ 7/10 then "Safety" else if p ≥ 2/5 then "Target"
        else if p ≥ 1/5 then "Reach" else "Far Reach") = "Safety" ↔ 7/10 ≤ p)
    ∧ ((if p ≥ 7/10 then "Safety" else if p ≥ 2/5 then "Target"
        else if p ≥ 1/5 then "Reach" else "Far Reach") = "Target" ↔ 2/5 ≤ p ∧ p < 7/10)
    ∧ ((if p ≥ 7/10 then "Safety" else if p ≥ 2/5 then "Target"
        else if p ≥ 1/5 then "Reach" else "Far Reach") = "Reach" ↔ 1/5 ≤ p ∧ p < 2/5)
    ∧ ((if p ≥ 7/10 then "Safety" else if p ≥ 2/5 then "Target"
        else if p ≥ 1/5 then "Reach" else "Far Reach") = "Far Reach" ↔ p < 1/5) := by
  by_cases h7 : (7:ℚ)/10 ≤ p
  · rw [if_pos (by exact h7)]
    exact ⟨iff_of_true rfl h7,
           iff_of_false (by decide) (fun hc => absurd h7 (not_le.mpr hc.2)),
           iff_of_false (by decide) (fun hc => absurd (le_trans (by norm_num) h7) (not_le.mpr hc.2)),
           iff_of_false (by decide) (fun hc => absurd (le_trans (by norm_num) h7) (not_le.mpr hc))⟩
  · rw [if_neg (by exact h7)]
    by_cases h4 : (2:ℚ)/5 ≤ p
    · rw [if_pos (by exact h4)]
      exact ⟨iff_of_false (by decide) (fun hc => h7 hc),
             iff_of_true rfl ⟨h4, lt_of_not_le h7⟩,
             iff_of_false (by decide) (fun hc => absurd h4 (not_le.mpr hc.2)),
             iff_of_false (by decide) (fun hc => absurd (le_trans (by norm_num) h4) (not_le.mpr hc))⟩
    · rw [if_neg (by exact h4)]
      by_cases h2 : (1:ℚ)/5 ≤ p
      · rw [if_pos (by exact h2)]
        exact ⟨iff_of_false (by decide) (fun hc => h7 hc),
               iff_of_false (by decide) (fun hc => h4 hc.1),
               iff_of_true rfl ⟨h2, lt_of_not_le h4⟩,
               iff_of_false (by decide) (fun hc => absurd h2 (not_le.mpr hc))⟩
      · rw [if_neg (by exact h2)]
        exact ⟨iff_of_false (by decide) (fun hc => h7 hc),
               iff_of_false (by decide) (fun hc => h4 hc.1),
               iff_of_false (by decide) (fun hc => h2 hc.1),
               iff_of_true rfl (lt_of_not_le h2)⟩

/-- C8: probability categorization — when the acceptance rate is known and
below 15, `"Target"` iff `p ≥ 0.5`, `"Reach"` iff `0.25 ≤ p < 0.5`,
`"Far Reach"` otherwise; in every other case `"Safety"` iff `p ≥ 0.7`,
`"Target"` iff `0.4 ≤ p < 0.7`, `"Reach"` iff `0.2 ≤ p < 0.4`,
`"Far Reach"` otherwise. -/
theorem categorize_chance_bands (p : ℚ) (ar : Option ℚ) (_h0 : 0 ≤ p) (_h1 : p ≤ 1) :
    ((∃ a, ar = some a ∧ a < 15) →
       ((categorize_chance p ar = "Target" ↔ 1/2 ≤ p)
        ∧ (categorize_chance p ar = "Reach" ↔ 1/4 ≤ p ∧ p < 1/2)
        ∧ (categorize_chance p ar = "Far Reach" ↔ p < 1/4)))
    ∧ (¬(∃ a, ar = some a ∧ a < 15) →
       ((categorize_chance p ar = "Safety" ↔ 7/10 ≤ p)
        ∧ (categorize_chance p ar = "Target" ↔ 2/5 ≤ p ∧ p < 7/10)
        ∧ (categorize_chance p ar = "Reach" ↔ 1/5 ≤ p ∧ p < 2/5)
        ∧ (categorize_chance p ar = "Far Reach" ↔ p < 1/5))) := by
  cases ar with
  | none =>
      refine ⟨?_, ?_⟩
      · rintro ⟨a, ha, -⟩
        cases ha
      · intro hgen
        unfold categorize_chance
        rw [if_neg (by simp)]
        exact general_bands p
  | some a =>
      refine ⟨?_, ?_⟩
      · rintro ⟨a2, ha2, hlt⟩
        cases ha2
        unfold categorize_chance
        rw [if_pos (by exact decide_eq_true hlt)]
        exact selective_bands p
      · intro hgen
        have hnlt : ¬ a < 15 := fun hlt => hgen ⟨a, rfl, hlt⟩
        unfold categorize_chance
        rw [if_neg (fun hc => hnlt (of_decide_eq_true hc))]
        exact general_bands p

/-- Witness for C8 at `p = 0.3`: `"Reach"` at a 10% acceptance rate
(selective banding) and also `"Reach"` at a 50% acceptance rate (general
banding). -/
theorem categorize_chance_bands_witness :
    categorize_chance (3/10) (some 10) = "Reach"
    ∧ categorize_chance (3/10) (some 50) = "Reach" :=
  ⟨((categorize_chance_bands (3/10) (some 10) (by norm_num) (by norm_num)).1
      ⟨10, rfl, by norm_num⟩).2.1.mpr ⟨by norm_num, by norm_num⟩,
   ((categorize_chance_bands (3/10) (some 50) (by norm_num) (by norm_num)).2
      (by rintro ⟨a, ha, hlt⟩; cases ha; norm_num at hlt)).2.2.1.mpr
      ⟨by norm_num, by norm_num⟩⟩

/-- C10: `clear_cache` frame property — a non-`None`, non-zero id evicts
exactly that college's cache entry and timestamp and touches nothing else;
`None` and the falsy id `0` both clear every entry; consequently no call
evicts only college 0's (present) entry while keeping any other present
entry. -/
theorem clear_cache_frame {M S : Type} :
    (∀ (s : Sys M S) (c : Int), c ≠ 0 →
       (clear_cache s (some c)).pred.model_cache c = none
       ∧ (clear_cache s (some c)).pred.cache_timestamps c = none
       ∧ (∀ c2, c2 ≠ c →
            (clear_cache s (some c)).pred.model_cache c2 = s.pred.model_cache c2
            ∧ (clear_cache s (some c)).pred.cache_timestamps c2 = s.pred.cache_timestamps c2)
       ∧ (clear_cache s (some c)).disk = s.disk
       ∧ (clear_cache s (some c)).trainer = s.trainer)
    ∧ (∀ (s : Sys M S) (c2 : Int),
         (clear_cache s none).pred.model_cache c2 = none
         ∧ (clear_cache s none).pred.cache_timestamps c2 = none
         ∧ (clear_cache s (some 0)).pred.model_cache c2 = none
         ∧ (clear_cache s (some 0)).pred.cache_timestamps c2 = none)
    ∧ (∀ (s : Sys M S) (arg : Option Int) (c2 : Int), c2 ≠ 0 →
         (s.pred.model_cache 0).isSome = true →
         (clear_cache s arg).pred.model_cache 0 = none →
         (clear_cache s arg).pred.model_cache c2 = none) := by
  have hzero : ∀ (s : Sys M S) (c2 : Int),
      (clear_cache s (some 0)).pred.model_cache c2 = none
      ∧ (clear_cache s (some 0)).pred.cache_timestamps c2 = none := by
    intro s c2
    unfold clear_cache
    dsimp only
    rw [if_neg (by simp)]
    exact ⟨rfl, rfl⟩
  refine ⟨?_, ?_, ?_⟩
  · intro s c hc
    unfold clear_cache
    dsimp only
    rw [if_pos hc]
    refine ⟨by simp, by simp, ?_, rfl, rfl⟩
    intro c2 hc2
    exact ⟨by simp [hc2], by simp [hc2]⟩
  · intro s c2
    exact ⟨rfl, rfl, (hzero s c2).1, (hzero s c2).2⟩
  · intro s arg c2 hc2 hpresent hcleared
    cases arg with
    | none => rfl
    | some v =>
        by_cases hv : v ≠ 0
        · exfalso
          unfold clear_cache at hcleared
          dsimp only at hcleared
          rw [if_pos hv] at hcleared
          have hred : (if (0 : Int) = v then none else s.pred.model_cache 0) = none := hcleared
          by_cases hv0 : (0 : Int) = v
          · exact hv (hv0.symm)
          · rw [if_neg hv0] at hred
            rw [hred] at hpresent
            cases hpresent
        · have hv0 : v = 0 := by omega
          subst hv0
          exact (hzero s c2).1

/-- A fixed metadata document used by concrete test states. -/
def mdFix : Metadata :=
  { college_id := 1
    trained_at := 0
    version := "1.0"
    sample_count := 30
    accepted_count := 15
    rejected_count := 15
    class_balance := 0
    feature_columns := FEATURE_COLUMNS
    metrics := { accuracy := 0, precision := 0, recall_score := 0, f1 := 0,
                 cv_mean := 0, cv_std := 0 }
    feature_importance := []
    is_deployed := true }

/-- A prediction-service state with cache entries for colleges 0, 1, 2. -/
def sC10 : Sys Unit Unit :=
  { emptySys with pred :=
      { model_cache := fun c => if c = 0 ∨ c = 1 ∨ c = 2 then some ((), (), mdFix) else none
        cache_timestamps := fun c => if c = 0 ∨ c = 1 ∨ c = 2 then some 0 else none } }

/-- Witness for C10: clearing college 1 evicts exactly its entry (college 2
survives), while the falsy id 0 clears college 2's entry as well. -/
theorem clear_cache_frame_witness :
    (clear_cache sC10 (some 1)).pred.model_cache 1 = none
    ∧ (clear_cache sC10 (some 1)).pred.model_cache 2 = some ((), (), mdFix)
    ∧ (clear_cache sC10 (some 0)).pred.model_cache 2 = none := by
  refine ⟨((@clear_cache_frame Unit Unit).1 sC10 1 (by decide)).1, ?_,
          ((@clear_cache_frame Unit Unit).2.1 sC10 2).2.2.1⟩
  have h := (((@clear_cache_frame Unit Unit).1 sC10 1 (by decide)).2.2.1 2 (by decide)).1
  rw [h]
  rfl

/-- The metadata lookup used by the C7 concrete input: college 1 has a
model trained today (`trained_at = 0`) with a recorded sample count of 30. -/
def mdLookupC7 : Int → Option Metadata := fun c => if c = 1 then some mdFix else none

/-- The aggregate row for the C7 boundary input: 36 current samples,
exactly 1.2 × the 30 recorded ones. -/
def rowC7 : AggRow := { college_id := 1, total := 36, accepted := 18, rejected := 18 }

/-- Counterexample for C7: at exactly 20% growth (36 = 1.2 × 30) the code
does *not* flag the college — the comparison is strict
(`total > sample_count * 1.2`) — although the college meets every
threshold, its model exists, is 0 days old, and the claimed criterion
`current total ≥ 1.2 × recorded count` holds. -/
theorem retraining_growth_boundary_counterexample :
    get_colleges_needing_retraining defaultConfig 0 mdLookupC7 [rowC7] = []
    ∧ (rowC7.total : ℚ) ≥ (mdFix.sample_count : ℚ) * (6/5)
    ∧ defaultConfig.MIN_SAMPLES_FOR_TRAINING ≤ rowC7.total
    ∧ defaultConfig.MIN_SAMPLES_PER_CLASS ≤ rowC7.accepted
    ∧ defaultConfig.MIN_SAMPLES_PER_CLASS ≤ rowC7.rejected
    ∧ mdLookupC7 rowC7.college_id = some mdFix
    ∧ (0 : Int) - mdFix.trained_at < 30 := by
  refine ⟨?_, by norm_num [rowC7, mdFix], by norm_num [defaultConfig, rowC7],
          by norm_num [defaultConfig, rowC7], by norm_num [defaultConfig, rowC7],
          by norm_num [mdLookupC7, rowC7], by norm_num [mdFix]⟩
  unfold get_colleges_needing_retraining retrain_row_decision
  norm_num [defaultConfig, mdLookupC7, rowC7, mdFix, List.filter, List.filterMap]

/-- C7 (amended): for a college meeting the minimum total and per-class
thresholds, `get_colleges_needing_retraining` flags it exactly when it has
no model, or its model is at least 30 days old, or the current total
*strictly exceeds* 1.2 × the recorded sample count (the claim said
`≥ 1.2 ×`, but the source comparison is strict), with the three distinct
reason strings. -/
theorem retraining_criteria (cfg : Config) (now : Int)
    (mdLookup : Int → Option Metadata) (r : AggRow)
    (hT : cfg.MIN_SAMPLES_FOR_TRAINING ≤ r.total)
    (hA : cfg.MIN_SAMPLES_PER_CLASS ≤ r.accepted)
    (hR : cfg.MIN_SAMPLES_PER_CLASS ≤ r.rejected) :
    (get_colleges_needing_retraining cfg now mdLookup [r] ≠ []
       ↔ (mdLookup r.college_id = none
          ∨ ∃ md, mdLookup r.college_id = some md
              ∧ (30 ≤ now - md.trained_at
                 ∨ (r.total : ℚ) > (md.sample_count : ℚ) * (6/5))))
    ∧ (mdLookup r.college_id = none →
         get_colleges_needing_retraining cfg now mdLookup [r]
           = [{ college_id := r.college_id, total_samples := r.total,
                accepted_count := r.accepted, rejected_count := r.rejected,
                reason := "No existing model", current_model := none }])
    ∧ (∀ md, mdLookup r.college_id = some md → 30 ≤ now - md.trained_at →
         get_colleges_needing_retraining cfg now mdLookup [r]
           = [{ college_id := r.college_id, total_samples := r.total,
                accepted_count := r.accepted, rejected_count := r.rejected,
                reason := "Model is " ++ intStr (now - md.trained_at) ++ " days old",
                current_model := some md }])
    ∧ (∀ md, mdLookup r.college_id = some md → ¬(30 ≤ now - md.trained_at) →
         (((r.total : ℚ) > (md.sample_count : ℚ) * (6/5) →
             get_colleges_needing_retraining cfg now mdLookup [r]
               = [{ college_id := r.college_id, total_samples := r.total,
                    accepted_count := r.accepted, rejected_count := r.rejected,
                    reason := "Significant new data (" ++ natStr r.total ++ " vs "
                              ++ natStr md.sample_count ++ ")",
                    current_model := some md }])
          ∧ (¬((r.total : ℚ) > (md.sample_count : ℚ) * (6/5)) →
             get_colleges_needing_retraining cfg now mdLookup [r] = []))) := by
  have hfil : get_colleges_needing_retraining cfg now mdLookup [r]
      = (retrain_row_decision cfg now mdLookup r).toList := by
    unfold get_colleges_needing_retraining
    rw [List.filter_singleton, decide_eq_true hT, cond_true]
    cases hdec : retrain_row_decision cfg now mdLookup r <;>
      simp [List.filterMap, hdec]
  have hbal : ¬(r.accepted < cfg.MIN_SAMPLES_PER_CLASS
      ∨ r.rejected < cfg.MIN_SAMPLES_PER_CLASS) := by
    push_neg
    exact ⟨hA, hR⟩
  rw [hfil]
  refine ⟨?_, ?_, ?_, ?_⟩
  · unfold retrain_row_decision
    rw [if_neg hbal]
    cases hmd : mdLookup r.college_id with
    | none => simp
    | some md =>
        dsimp only
        constructor
        · intro hne
          refine Or.inr ⟨md, rfl, ?_⟩
          by_cases h30 : 30 ≤ now - md.trained_at
          · exact Or.inl h30
          · rw [if_neg (by simpa using h30)] at hne
            by_cases hgrow : (r.total : ℚ) > (md.sample_count : ℚ) * (6/5)
            · exact Or.inr hgrow
            · rw [if_neg hgrow] at hne
              exact absurd rfl hne
        · rintro (hnone | ⟨md2, hmd2, hcond⟩)
          · cases hnone
          · cases hmd2
            rcases hcond with h30 | hgrow
            · rw [if_pos (by simpa using h30)]
              simp
            · by_cases h30 : 30 ≤ now - md.trained_at
              · rw [if_pos (by simpa using h30)]
                simp
              · rw [if_neg (by simpa using h30), if_pos hgrow]
                simp
  · intro hmd
    unfold retrain_row_decision
    rw [if_neg hbal, hmd]
    rfl
  · intro md hmd h30
    unfold retrain_row_decision
    rw [if_neg hbal, hmd]
    dsimp only
    rw [if_pos (by simpa using h30)]
    rfl
  · intro md hmd h30
    unfold retrain_row_decision
    rw [if_neg hbal, hmd]
    dsimp only
    rw [if_neg (by simpa using h30)]
    constructor
    · intro hgrow
      rw [if_pos hgrow]
      rfl
    · intro hgrow
      rw [if_neg hgrow]
      rfl

/-- Witness for C7 (amended): a college with data but no model is flagged
with reason `"No existing model"`. -/
theorem retraining_criteria_witness :
    get_colleges_needing_retraining defaultConfig 0 (fun _ => none) [rowC7]
      = [{ college_id := 1, total_samples := 36, accepted_count := 18,
           rejected_count := 18, reason := "No existing model",
           current_model := none }] := by
  have h := (retraining_criteria defaultConfig 0 (fun _ => none) rowC7
      (by norm_num [defaultConfig, rowC7]) (by norm_num [defaultConfig, rowC7])
      (by norm_num [defaultConfig, rowC7])).2.1 rfl
  simpa [rowC7] using h

/-- The trivial oracle over unit classifier and scaler types, used by the
concrete evaluations. -/
def oracleU : Oracle Unit Unit :=
  { fit := fun _ _ => ((), (), { accuracy := 0, precision := 0, recall_score := 0,
                                 f1 := 0, cv_mean := 0, cv_std := 0 })
    coef := fun _ => []
    transform := fun _ _ => Except.ok []
    predictProba := fun _ _ => Except.ok [] }

/-- A state whose disk holds a complete artifact for college 1
(trained at day 0). -/
def sFresh : Sys Unit Unit :=
  { emptySys with disk :=
      { modelFile := fun c => if c = 1 then some (Blob.ok ()) else none
        scalerFile := fun c => if c = 1 then some (Blob.ok ()) else none
        metadataFile := fun c => if c = 1 then some (Blob.ok mdFix) else none } }

/-- C3: with `force=False` and an existing model whose metadata loads, the
freshness branch of `train_model` reads `config.MODEL_FRESHNESS_DAYS` — an
attribute config.py never defines — so the call raises `AttributeError`
instead of returning the structured no-op result the spec describes. -/
theorem train_model_freshness_raises :
    (train_model defaultConfig oracleU 5 sFresh 1 [] false).1
      = Except.error (PyErr.attributeError "MODEL_FRESHNESS_DAYS") := rfl

/-- C6: `train_model` on input whose every record is filtered out (here:
the empty list, and a single suspicious record with GPA 200) produces an
empty DataFrame with no columns, and `df['college_id']` raises
`KeyError('college_id')` instead of returning the structured readiness
failure the spec describes. -/
theorem train_model_empty_dataset_raises :
    (train_model defaultConfig oracleU 0 emptySys 1 [] false).1
      = Except.error (PyErr.keyError "college_id")
    ∧ (train_model defaultConfig oracleU 0 emptySys 1
         [{ gpa := some 200, decision := some "accepted", college_id := some 1 }] false).1
      = Except.error (PyErr.keyError "college_id") :=
  ⟨rfl, rfl⟩

/-- C1: the quality gate — whenever a training call reaches the evaluation
step and the computed validation accuracy is below the configured
threshold, `train_model` returns the structured failure with the metrics
attached and the state is exactly the pre-call state, so a subsequent
`load_model` / `load_model_metadata` returns precisely what it returned
before the call (the prior artifact, or nothing). -/
theorem train_core_gate {M S : Type} (cfg : Config) (oracle : Oracle M S)
    (now : Int) (s : Sys M S) (cid : Int) (data : List RawRecord)
    (hne : (prepare_training_data cfg data).isEmpty = false)
    (hready : (check_training_readiness cfg (collegeSlice cfg data cid)).1 = true)
    (hacc : (fitOutput cfg oracle data cid).2.2.accuracy < cfg.MIN_ACCURACY_THRESHOLD) :
    train_model_core cfg oracle now s cid data
      = (Except.ok (accuracyFailure cfg oracle data cid), s) := by
  unfold train_model_core
  dsimp only
  rw [if_neg (by simp [hne]), if_neg (by simp [hready]), if_pos hacc]

theorem train_quality_gate {M S : Type} (cfg : Config) (oracle : Oracle M S)
    (now : Int) (s : Sys M S) (cid : Int) (data : List RawRecord) (force : Bool)
    (hfresh : force = true ∨ s.disk.modelFile cid = none
              ∨ load_model_metadata s cid = Except.ok none)
    (hne : (prepare_training_data cfg data).isEmpty = false)
    (hready : (check_training_readiness cfg (collegeSlice cfg data cid)).1 = true)
    (hacc : (fitOutput cfg oracle data cid).2.2.accuracy < cfg.MIN_ACCURACY_THRESHOLD) :
    train_model cfg oracle now s cid data force
      = (Except.ok (accuracyFailure cfg oracle data cid), s)
    ∧ (accuracyFailure cfg oracle data cid).success = false
    ∧ (accuracyFailure cfg oracle data cid).metrics
        = some (fitOutput cfg oracle data cid).2.2
    ∧ load_model (train_model cfg oracle now s cid data force).2 cid
        = load_model s cid
    ∧ load_model_metadata (train_model cfg oracle now s cid data force).2 cid
        = load_model_metadata s cid := by
  have hcore := train_core_gate cfg oracle now s cid data hne hready hacc
  have hmain : train_model cfg oracle now s cid data force
      = (Except.ok (accuracyFailure cfg oracle data cid), s) := by
    unfold train_model
    rcases hfresh with hf | hm | hmd
    · rw [if_neg (by rintro ⟨hff, -⟩; rw [hf] at hff; cases hff)]
      exact hcore
    · rw [if_neg (by rintro ⟨-, hsm⟩; rw [hm] at hsm; cases hsm)]
      exact hcore
    · by_cases hcond : force = false ∧ (s.disk.modelFile cid).isSome = true
      · rw [if_pos hcond, hmd]
        exact hcore
      · rw [if_neg hcond]
        exact hcore
  refine ⟨hmain, rfl, rfl, ?_, ?_⟩
  · rw [hmain]
  · rw [hmain]

/-- A small environment-overridden configuration (every value in config.py
comes from the environment) used by the concrete training runs. -/
def cfgSmall : Config :=
  { MIN_SAMPLES_FOR_TRAINING := 2
    MIN_SAMPLES_PER_CLASS := 1
    MIN_ACCURACY_THRESHOLD := 1/2
    VALIDATION_SPLIT := 1/5
    CV_FOLDS := 5
    MIN_CONFIDENCE_SCORE := 0
    MODEL_CACHE_TTL := 3600 }

def recA : RawRecord := { gpa := some 3, decision := some "accepted", college_id := some 1 }

def recR : RawRecord := { gpa := some 3, decision := some "rejected", college_id := some 1 }

def dataAR : List RawRecord := [recA, recR]

/-- The training row produced from `recA` / `recR`. -/
def rowOf (admitted : Bool) : Row :=
  { gpa_normalized := some 3
    test_score_percentile := 50
    class_rank_percentile := 50
    ap_ib_count := 0
    activity_tier1_count := 0
    activity_tier2_count := 0
    activity_tier3_count := 0
    is_first_gen := 0
    is_legacy := 0
    is_athlete := 0
    is_in_state := 0
    college_acceptance_rate := 50
    admitted := admitted
    college_id := some 1
    confidence_score := 6/13 }

theorem pyLower_empty : pyLower "" = "" := rfl

theorem data_empty : ("" : String).data = [] := rfl

theorem listSub_empty_hay (c : Char) (cs : List Char) : listSub (c :: cs) [] = false := rfl

theorem prep_dataAR : prepare_training_data cfgSmall dataAR = [rowOf true, rowOf false] := by
  norm_num [prepare_training_data, dataAR, recA, recR, cfgSmall, is_suspicious_entry,
            calculate_confidence_score, truthyI, truthyQ, strContains,
            pyLower_empty, data_empty, listSub_empty_hay,
            recordToRow, normalize_gpa, gpaScaleMax, get_test_score_percentile,
            medianQ, sortQ, insertQ, rowOf, List.filterMap]
  decide

/-- Witness for C1: a concrete two-record training run whose oracle
accuracy 0 falls below the 0.5 threshold — result is the metric-carrying
failure and the state (here: the empty store) is untouched. -/
theorem train_quality_gate_witness :
    train_model cfgSmall oracleU 0 emptySys 1 dataAR true
      = (Except.ok (accuracyFailure cfgSmall oracleU dataAR 1), emptySys)
    ∧ (accuracyFailure cfgSmall oracleU dataAR 1).success = false
    ∧ (accuracyFailure cfgSmall oracleU dataAR 1).metrics
        = some (fitOutput cfgSmall oracleU dataAR 1).2.2 := by
  have h := train_quality_gate cfgSmall oracleU 0 emptySys 1 dataAR true
    (Or.inl rfl)
    (by rw [prep_dataAR]; rfl)
    (by unfold collegeSlice; rw [prep_dataAR]; decide)
    (by norm_num [fitOutput, oracleU, cfgSmall])
  exact ⟨h.1, h.2.1, h.2.2.1⟩

/-- C2 (amended): once the artifact triple has been resolved without
raising, `predict` never propagates an exception: for an absent artifact it
returns the rule-based fallback, and for a present one it returns either
the ML result or the rule-based fallback annotated with the triggering
error in `fallback_reason`.  (Exceptions raised *while loading* a corrupt
artifact happen before the `try` and do propagate — see the
counterexample.) -/
theorem predict_ml_errors_degrade {M S : Type} (cfg : Config) (oracle : Oracle M S)
    (t : ℚ) (s : Sys M S) (p : StudentProfile) (c : College)
    (ro : Option (M × S × Metadata)) (s1 : Sys M S)
    (hres : get_cached_model cfg t s c.id = (Except.ok ro, s1)) :
    ∃ out, predict cfg oracle t s p c = (Except.ok out, s1)
      ∧ (ro = none → out = rule_based_prediction cfg p c)
      ∧ (∀ m sc md, ro = some (m, sc, md) →
           (predict_ml_body oracle p c m sc md = Except.ok out
            ∨ ∃ e, predict_ml_body oracle p c m sc md = Except.error e
                ∧ out = { rule_based_prediction cfg p c with fallback_reason := some e })) := by
  unfold predict
  rw [hres]
  cases ro with
  | none =>
      refine ⟨rule_based_prediction cfg p c, rfl, fun _ => rfl, ?_⟩
      intro m sc md hc
      cases hc
  | some triple =>
      rcases triple with ⟨m, sc, md⟩
      dsimp only
      cases hbody : predict_ml_body oracle p c m sc md with
      | ok res =>
          refine ⟨res, rfl, by rintro ⟨⟩, ?_⟩
          rintro m2 sc2 md2 ⟨⟩
          exact Or.inl hbody
      | error e =>
          refine ⟨{ rule_based_prediction cfg p c with fallback_reason := some e },
                  rfl, by rintro ⟨⟩, ?_⟩
          rintro m2 sc2 md2 ⟨⟩
          exact Or.inr ⟨e, hbody, rfl⟩

/-- A state whose persisted classifier file for college 1 is corrupt. -/
def sCorrupt : Sys Unit Unit :=
  { (emptySys : Sys Unit Unit) with disk := { (emptySys : Sys Unit Unit).disk with
      modelFile := fun c => if c = 1 then some Blob.corrupt else none } }

def profile0 : StudentProfile := {}

def college1 : College := { id := 1 }

/-- Counterexample for C2: a persisted-but-corrupt classifier artifact
makes `joblib.load` raise inside `_get_cached_model`, which runs *before*
the `try` in `predict`, so the exception propagates to the caller instead
of degrading to the rule-based fallback. -/
theorem predict_corrupt_artifact_propagates :
    (predict defaultConfig oracleU 0 sCorrupt profile0 college1).1
      = Except.error (PyErr.loadError (modelPath 1)) := rfl

/-- Witness for C2 (amended): with no artifact at all, `predict` returns
the rule-based fallback and raises nothing. -/
theorem predict_ml_errors_degrade_witness :
    predict defaultConfig oracleU 0 emptySys profile0 college1
      = (Except.ok (rule_based_prediction defaultConfig profile0 college1), emptySys) := by
  obtain ⟨out, h1, h2, h3⟩ :=
    predict_ml_errors_degrade defaultConfig oracleU 0 emptySys profile0 college1
      none emptySys rfl
  rw [h2 rfl] at h1
  exact h1

/-- The loadable classifier currently persisted for a college. -/
def diskModel {M S : Type} (s : Sys M S) (cid : Int) : Option M :=
  match s.disk.modelFile cid with
  | some (Blob.ok m) => some m
  | _ => none

/-- The loadable scaler currently persisted for a college. -/
def diskScaler {M S : Type} (s : Sys M S) (cid : Int) : Option S :=
  match s.disk.scalerFile cid with
  | some (Blob.ok sc) => some sc
  | _ => none

theorem load_model_fst {M S : Type} {s : Sys M S} (h : CacheConsistent s) (cid : Int) :
    (load_model s cid).1 = Except.ok (diskModel s cid) := by
  unfold load_model diskModel
  cases hm : s.trainer.models cid with
  | some m =>
      rw [h.1 cid m hm]
  | none =>
      cases hd : s.disk.modelFile cid with
      | none => rfl
      | some b =>
          cases b with
          | ok m => rfl
          | corrupt => exact absurd hd (h.2.2.1 cid)

theorem load_scaler_fst {M S : Type} {s : Sys M S} (h : CacheConsistent s) (cid : Int) :
    (load_scaler s cid).1 = Except.ok (diskScaler s cid) := by
  unfold load_scaler diskScaler
  cases hm : s.trainer.scalers cid with
  | some sc =>
      rw [h.2.1 cid sc hm]
  | none =>
      cases hd : s.disk.scalerFile cid with
      | none => rfl
      | some b =>
          cases b with
          | ok sc => rfl
          | corrupt => exact absurd hd (h.2.2.2.1 cid)

theorem diskArtifact_eq {M S : Type} (s : Sys M S) (cid : Int) :
    diskArtifact s cid
      = (match diskModel s cid, diskScaler s cid, diskMetadata s cid with
         | some m, some sc, some md => some (m, sc, md)
         | _, _, _ => none) := by
  unfold diskArtifact diskModel diskScaler diskMetadata
  rcases s.disk.modelFile cid with _ | bm <;>
    rcases s.disk.scalerFile cid with _ | bs <;>
      rcases s.disk.metadataFile cid with _ | bd <;>
        (try cases bm) <;> (try cases bs) <;> (try cases bd) <;> rfl

/-- On a cache miss, `_get_cached_model` resolves exactly the persisted
artifact (given a consistent state: the trainer caches only ever hold what
is on disk). -/
theorem get_cached_model_miss {M S : Type} {s : Sys M S} (h : CacheConsistent s)
    (cfg : Config) (t : ℚ) (cid : Int) (hmiss : s.pred.model_cache cid = none) :
    (get_cached_model cfg t s cid).1 = Except.ok (diskArtifact s cid) := by
  have hc1 : CacheConsistent (load_model s cid).2 := (load_model_preserves h cid).1
  have hd1 : (load_model s cid).2.disk = s.disk := (load_model_preserves h cid).2.1
  have hc2 : CacheConsistent (load_scaler (load_model s cid).2 cid).2 :=
    (load_scaler_preserves hc1 cid).1
  have hd2 : (load_scaler (load_model s cid).2 cid).2.disk = s.disk :=
    ((load_scaler_preserves hc1 cid).2.1).trans hd1
  unfold get_cached_model
  rw [hmiss]
  rw [if_neg (by simp)]
  dsimp only
  rw [load_model_fst h cid]
  dsimp only
  rw [load_scaler_fst hc1 cid]
  dsimp only
  have hsc : diskScaler (load_model s cid).2 cid = diskScaler s cid := by
    unfold diskScaler
    rw [hd1]
  have hmdeq : diskMetadata (load_scaler (load_model s cid).2 cid).2 cid
      = diskMetadata s cid := by
    unfold diskMetadata
    rw [hd2]
  rw [load_model_metadata_of_consistent hc2 cid, hsc, hmdeq]
  dsimp only
  rw [diskArtifact_eq]
  cases diskModel s cid <;> cases diskScaler s cid <;> cases diskMetadata s cid <;> rfl

theorem clear_cache_evicts {M S : Type} (s : Sys M S) (cid : Int) :
    (clear_cache s (some cid)).pred.model_cache cid = none := by
  unfold clear_cache
  dsimp only
  split
  · simp
  · rfl

/-- C4: after `clear_cache(cid)`, the next artifact resolution for that
college yields exactly the persisted artifact (never a pre-clear cache
value that differs from it — in every reachable state the trainer caches
agree with the store), and when nothing is persisted the next `predict`
returns the rule-based fallback. -/
theorem predict_after_clear_uses_store {M S : Type} (cfg : Config) (oracle : Oracle M S)
    (s : Sys M S) (hs : Reachable cfg oracle s) (cid : Int) (t : ℚ)
    (p : StudentProfile) (c : College) (hcid : c.id = cid) :
    ((get_cached_model cfg t (clear_cache s (some cid)) cid).1
        = Except.ok (diskArtifact s cid))
    ∧ (diskArtifact s cid = none →
        (predict cfg oracle t (clear_cache s (some cid)) p c).1
          = Except.ok (rule_based_prediction cfg p c)) := by
  have hs1 : Reachable cfg oracle (clear_cache s (some cid)) :=
    Reachable.clear s (some cid) hs
  have hgood := reachable_good hs1
  have hdisk : (clear_cache s (some cid)).disk = s.disk :=
    (clear_cache_preserves s (some cid)).1
  have hart : diskArtifact (clear_cache s (some cid)) cid = diskArtifact s cid := by
    unfold diskArtifact
    rw [hdisk]
  have h1 : (get_cached_model cfg t (clear_cache s (some cid)) cid).1
      = Except.ok (diskArtifact s cid) := by
    rw [get_cached_model_miss hgood.1 cfg t cid (clear_cache_evicts s cid), hart]
  refine ⟨h1, ?_⟩
  intro hnone
  rcases hg : get_cached_model cfg t (clear_cache s (some cid)) cid with ⟨r, s2⟩
  have hr : r = Except.ok none := by
    have := h1
    rw [hg] at this
    dsimp only at this
    rw [this, hnone]
  subst hr
  unfold predict
  rw [hcid, hg]

/-- Witness for C4: from the empty reachable state, clearing college 1 and
predicting resolves no artifact and returns the rule-based fallback. -/
theorem predict_after_clear_uses_store_witness :
    (get_cached_model defaultConfig 0 (clear_cache (emptySys : Sys Unit Unit) (some 1)) 1).1
      = Except.ok none
    ∧ (predict defaultConfig oracleU 0 (clear_cache (emptySys : Sys Unit Unit) (some 1))
         profile0 college1).1
      = Except.ok (rule_based_prediction defaultConfig profile0 college1) := by
  have h := predict_after_clear_uses_store defaultConfig oracleU emptySys Reachable.init
    1 0 profile0 college1 rfl
  exact ⟨h.1, h.2 rfl⟩

/-- Whether a training call returned a success result. -/
def successOf : Except PyErr TrainResult → Bool :=
  fun r => match r with
  | Except.ok res => res.success
  | Except.error _ => false

theorem load_metadata_ok_eq {M S : Type} {s : Sys M S} {cid : Int}
    {old : Option Metadata} (h : load_model_metadata s cid = Except.ok old) :
    old = diskMetadata s cid := by
  unfold load_model_metadata at h
  unfold diskMetadata
  cases hm : s.disk.metadataFile cid with
  | none =>
      rw [hm] at h
      cases h
      rfl
  | some b =>
      cases b with
      | ok md =>
          rw [hm] at h
          cases h
          rfl
      | corrupt =>
          rw [hm] at h
          cases h

/-- A successful `train_model` call commits exactly the fitted artifact
with the metadata whose version bumps the previously persisted one. -/
theorem train_model_success_shape {M S : Type} (cfg : Config) (oracle : Oracle M S)
    (now : Int) (s : Sys M S) (cid : Int) (data : List RawRecord) (force : Bool)
    (hsucc : successOf (train_model cfg oracle now s cid data force).1 = true) :
    (train_model cfg oracle now s cid data force).2
      = commitArtifact s cid (fitOutput cfg oracle data cid).1
          (fitOutput cfg oracle data cid).2.1
          (trainedMetadata cfg oracle now cid data (diskMetadata s cid)) := by
  unfold train_model train_model_core at hsucc ⊢
  dsimp only at hsucc ⊢
  split at hsucc
  · rename_i hcond
    rw [if_pos hcond]
    cases hmeta : load_model_metadata s cid with
    | error e =>
        rw [hmeta] at hsucc
        simp [successOf] at hsucc
    | ok mo =>
        rw [hmeta] at hsucc
        cases mo with
        | some md => simp [successOf] at hsucc
        | none =>
            dsimp only at hsucc ⊢
            split at hsucc
            · simp [successOf] at hsucc
            · split at hsucc
              · simp [successOf] at hsucc
              · split at hsucc
                · simp [successOf, accuracyFailure] at hsucc
                · rename_i hempty hready hacc
                  rw [if_neg hempty, if_neg hready, if_neg hacc]
                  cases hmeta2 : load_model_metadata
                      (dumpFiles s cid (fitOutput cfg oracle data cid).1
                        (fitOutput cfg oracle data cid).2.1) cid with
                  | error e =>
                      rw [hmeta2] at hsucc
                      simp [successOf] at hsucc
                  | ok old =>
                      dsimp only
                      have hold : old = diskMetadata s cid := load_metadata_ok_eq hmeta2
                      rw [hold]
  · rename_i hcond
    rw [if_neg hcond]
    split at hsucc
    · simp [successOf] at hsucc
    · split at hsucc
      · simp [successOf] at hsucc
      · split at hsucc
        · simp [successOf, accuracyFailure] at hsucc
        · rename_i hempty hready hacc
          rw [if_neg hempty, if_neg hready, if_neg hacc]
          cases hmeta2 : load_model_metadata
              (dumpFiles s cid (fitOutput cfg oracle data cid).1
                (fitOutput cfg oracle data cid).2.1) cid with
          | error e =>
              rw [hmeta2] at hsucc
              simp [successOf] at hsucc
          | ok old =>
              dsimp only
              have hold : old = diskMetadata s cid := load_metadata_ok_eq hmeta2
              rw [hold]

/-- The version string currently persisted for a college. -/
def diskVersion {M S : Type} (s : Sys M S) (cid : Int) : Option String :=
  match diskMetadata s cid with
  | some md => some md.version
  | none => none

/-- C5: every successful `train_model` call persists the canonical next
version: `"1.0"` on the first success for a college, and `"1.(m+1)"` when
the previously persisted version was `"1.m"` — so over every reachable
state the minor number strictly increases by one per success while the
major number stays `1` and the version never regresses. -/
theorem version_minor_increments {M S : Type} (cfg : Config) (oracle : Oracle M S)
    (s : Sys M S) (hs : Reachable cfg oracle s) (now : Int) (cid : Int)
    (data : List RawRecord) (force : Bool)
    (hsucc : successOf (train_model cfg oracle now s cid data force).1 = true) :
    ∃ n md2,
      diskMetadata (train_model cfg oracle now s cid data force).2 cid = some md2
      ∧ md2.version = vstr n
      ∧ ((diskMetadata s cid = none ∧ n = 0)
         ∨ (∃ md1 m, diskMetadata s cid = some md1 ∧ md1.version = vstr m ∧ n = m + 1)) := by
  rw [train_model_success_shape cfg oracle now s cid data force hsucc]
  cases hold : diskMetadata s cid with
  | none =>
      refine ⟨0, trainedMetadata cfg oracle now cid data none, ?_, ?_, Or.inl ⟨rfl, rfl⟩⟩
      · unfold diskMetadata commitArtifact
        simp
      · rw [show (trainedMetadata cfg oracle now cid data none).version
            = get_next_version none from rfl, get_next_version_none, vstr_zero]
  | some md1 =>
      obtain ⟨m, hm⟩ := (reachable_good hs).2 cid md1 hold
      refine ⟨m + 1, trainedMetadata cfg oracle now cid data (some md1), ?_, ?_,
              Or.inr ⟨md1, m, rfl, hm, rfl⟩⟩
      · unfold diskMetadata commitArtifact
        simp
      · rw [show (trainedMetadata cfg oracle now cid data (some md1)).version
            = get_next_version (some md1) from rfl, get_next_version_vstr md1 m hm]

/-- An oracle whose fitted model evaluates with perfect accuracy, used for
the concrete successful training run. -/
def oracleG : Oracle Unit Unit :=
  { fit := fun _ _ => ((), (), { accuracy := 1, precision := 1, recall_score := 1,
                                 f1 := 1, cv_mean := 1, cv_std := 0 })
    coef := fun _ => []
    transform := fun _ _ => Except.ok []
    predictProba := fun _ _ => Except.ok [] }

theorem train_dataAR_succeeds :
    successOf (train_model cfgSmall oracleG 0 emptySys 1 dataAR true).1 = true := by
  have e1 : cfgSmall.MIN_SAMPLES_PER_CLASS = 1 := rfl
  have e2 : cfgSmall.MIN_SAMPLES_FOR_TRAINING = 2 := rfl
  have e3 : cfgSmall.MIN_ACCURACY_THRESHOLD = 1/2 := rfl
  norm_num [train_model, train_model_core, successOf, prep_dataAR, collegeSlice,
            check_training_readiness, e1, e2, e3, fitOutput, oracleG, trainX, trainY,
            rowOf, List.filter, load_model_metadata, dumpFiles, emptySys]

/-- Witness for C5 (end-to-end scenario A): the first successful training
run for a college persists version `"1.0"`. -/
theorem version_minor_increments_witness :
    diskVersion ((train_model cfgSmall oracleG 0 emptySys 1 dataAR true).2) 1 = some "1.0" := by
  obtain ⟨n, md2, h1, h2, h3⟩ :=
    version_minor_increments cfgSmall oracleG emptySys Reachable.init 0 1 dataAR true
      train_dataAR_succeeds
  rcases h3 with ⟨-, rfl⟩ | ⟨md1, m, hmd1, -, -⟩
  · unfold diskVersion
    rw [h1]
    dsimp only
    rw [h2, vstr_zero]
  · rw [show diskMetadata (emptySys : Sys Unit Unit) 1 = none from rfl] at hmd1
    cases hmd1
